import Mathlib

/-!
Shallow embedding of the Nasc dependency-injection container
(toutaio/toutago-nasc-dependency-injector) in Lean 4.

Go reflect.Type values are modelled by the structure GoType: its str field is
the value of reflect.Type.String() used for resolution-path keys, its kind
field the reflect.Kind, and implError records whether the type implements the
error interface.  Whether a concrete type implements the Disposable or
Initializable capability of scope.go is a property of the type and is carried
in the fields disposeB and initB.  Instances (Go interface{} values) are
modelled by Value: the concrete type plus an allocation identity.

Go maps are modelled by association lists (insertion order stands in for Go's
unspecified map iteration order); mutexes and locks are dropped, the embedding
being sequential; panics are modelled as the error side of an Except whose
message is the panic string.
-/

namespace NascDI

/-- Go reflect.Kind, restricted to the kinds the container inspects. -/
inductive Kind where
  | interfaceK
  | ptrK
  | structK
  | intK
  | funcK
  | otherK
deriving DecidableEq

/-- A Go type as the container sees it through reflection. -/
structure GoType where
  /-- reflect.Type.String() -/
  str : String
  kind : Kind
  /-- whether the type implements the error interface -/
  implError : Bool := false
  /-- whether values of the type implement Disposable, and how Dispose() behaves:
  none means not Disposable, some none a Dispose returning nil, some (some m)
  a Dispose returning an error with message m. -/
  disposeB : Option (Option String) := none
  /-- whether values of the type implement Initializable, and how Initialize()
  behaves, encoded like disposeB. -/
  initB : Option (Option String) := none
deriving DecidableEq

/-- A runtime instance: its concrete type and an allocation identity. -/
structure Value where
  ty : GoType
  id : Nat
deriving DecidableEq

/-- True when the instance implements the Disposable interface. -/
def Value.isDisposable (v : Value) : Bool :=
  v.ty.disposeB.isSome

/-- The error message returned by the instance's Dispose(), when it fails. -/
def Value.disposeErr (v : Value) : Option String :=
  match v.ty.disposeB with
  | some (some m) => some m
  | _ => none

/-- The error taxonomy of errors.go and registry/registry.go. -/
inductive GoError where
  /-- InvalidBindingError -/
  | invalidBinding (reason : String)
  /-- registry.BindingAlreadyExistsError -/
  | bindingExists (ty : String)
  /-- registry.BindingNotFoundError -/
  | notFound (ty : String)
  /-- the fmt.Errorf of Registry.GetNamed for a known type but unknown name -/
  | namedNotFound (name ty : String)
  /-- CircularDependencyError with its Path -/
  | circular (path : List String)
  /-- ResolutionError with Type, Name, Context and Cause -/
  | resolution (ty name ctxt : String) (cause : Option GoError)
  /-- ValidationError aggregating the errors found by Validate -/
  | validation (errs : List GoError)
  /-- a fmt.Errorf wrapping a cause with a message prefix (%w wrapping) -/
  | wrap (pre : String) (cause : GoError)
  /-- an error produced by user code (constructor, factory or Dispose body) -/
  | userErr (msg : String)
  /-- a plain fmt.Errorf with no wrapped cause -/
  | plain (msg : String)
  /-- the aggregate error of Scope.Dispose: the failure count and the
  collected failures -/
  | disposal (count : Nat) (errs : List GoError)
  /-- embedding artifact: recursion fuel ran out (never reached by theorems) -/
  | fuel

/-- Association-list lookup, the model of a Go map read. -/
def alookup {α β : Type} [DecidableEq α] : List (α × β) → α → Option β
  | [], _ => none
  | (k, v) :: rest, a => if k = a then some v else alookup rest a

/-- Association-list assignment, the model of a Go map write. -/
def aupdate {α β : Type} [DecidableEq α] : List (α × β) → α → β → List (α × β)
  | [], a, v => [(a, v)]
  | (k, w) :: rest, a, v =>
      if k = a then (a, v) :: rest else (k, w) :: aupdate rest a v

/-- The reflective view of a Go constructor function value, together with the
behavior of its body: run takes the resolved arguments and yields results[0]
and, when present, the error value of results[1] (none modelling a nil
error). -/
structure GoFunc where
  params : List GoType
  outs : List GoType
  run : List Value → Value × Option String

/-- constructorInfo of scope.go: the metadata parseConstructor extracts. -/
structure CtorInfo where
  fn : GoFunc
  paramTypes : List GoType
  returnsError : Bool
  returnType : GoType
  numParams : Nat

/-- registry.Binding.  The Factory field is modelled by the result the user
factory returns (none when the Factory field does not hold a FactoryFunc,
matching the failed type assertion in the source). -/
structure Binding where
  abstractType : GoType
  concreteType : Option GoType
  lifetime : String
  factory : Option (Except GoError Value) := none
  constructor : Option CtorInfo := none
  autoWireEnabled : Bool := false
  name : String := ""
  tags : List String := []

/-- The four lifetime constants of lifetime.go. -/
def LifetimeTransient : String := "transient"

def LifetimeSingleton : String := "singleton"

def LifetimeScoped : String := "scoped"

def LifetimeFactory : String := "factory"

/-- registry.Registry: unnamed bindings per type, and named bindings per type
and name. -/
structure Registry where
  bindings : List (GoType × Binding) := []
  namedBindings : List (GoType × List (String × Binding)) := []

/-- registry.New() -/
def Registry.empty : Registry := {}

/-- Registry.Register: rejects a duplicate unnamed binding for the same
abstract type, otherwise stores the binding.  The registry is returned
alongside the error so that the unchanged-on-failure behavior is visible. -/
def Registry.register (r : Registry) (b : Binding) : Option GoError × Registry :=
  if (alookup r.bindings b.abstractType).isSome then
    (some (.bindingExists b.abstractType.str), r)
  else
    (none, { r with bindings := r.bindings ++ [(b.abstractType, b)] })

/-- Registry.RegisterNamed: requires a nonempty name and rejects a duplicate
(type, name) pair. -/
def Registry.registerNamed (r : Registry) (b : Binding) : Option GoError × Registry :=
  if b.name = "" then
    (some (.plain "named binding must have a name"), r)
  else
    let m := (alookup r.namedBindings b.abstractType).getD []
    if (alookup m b.name).isSome then
      (some (.plain ("named binding " ++ b.name ++ " for type " ++
        b.abstractType.str ++ " already exists")), r)
    else
      (none,
        { r with
          namedBindings := aupdate r.namedBindings b.abstractType (m ++ [(b.name, b)]) })

/-- Registry.Get -/
def Registry.get (r : Registry) (ty : GoType) : Except GoError Binding :=
  match alookup r.bindings ty with
  | none => .error (.notFound ty.str)
  | some b => .ok b

/-- Registry.GetNamed: distinguishes an unknown type from an unknown name. -/
def Registry.getNamed (r : Registry) (ty : GoType) (name : String) :
    Except GoError Binding :=
  match alookup r.namedBindings ty with
  | none => .error (.notFound ty.str)
  | some m =>
    match alookup m name with
    | none => .error (.namedNotFound name ty.str)
    | some b => .ok b

/-- Registry.HasUnnamedBinding -/
def Registry.hasUnnamedBinding (r : Registry) (ty : GoType) : Bool :=
  (alookup r.bindings ty).isSome

/-- Registry.GetAllNamedFor: the names registered for a type. -/
def Registry.getAllNamedFor (r : Registry) (ty : GoType) : List String :=
  ((alookup r.namedBindings ty).getD []).map Prod.fst

/-- Registry.GetAllTypes: every type with an unnamed or a named binding, each
type once, in first-seen order. -/
def Registry.getAllTypes (r : Registry) : List GoType :=
  (r.bindings.map Prod.fst ++ r.namedBindings.map Prod.fst).foldl
    (fun acc k => if k ∈ acc then acc else acc ++ [k]) []

/-- The mutable container state threaded through resolution: the singleton
cache (keyed by the cache-key string), the log of singleton factory bodies
actually executed (one entry per sync.Once firing, in order), the log of
Initialize() invocations performed by scopes, and the allocation counter
behind reflect.New. -/
structure RState where
  cache : List (String × Except GoError Value) := []
  calls : List String := []
  inits : List Value := []
  nextId : Nat := 0

/-- reflect.New(concrete.Elem()): a fresh instance of the concrete type. -/
def RState.newObj (s : RState) (concrete : GoType) : Value × RState :=
  (⟨concrete, s.nextId⟩, { s with nextId := s.nextId + 1 })

/-- singletonCache.getOrCreate: return the memoized (value, error) pair for
the key if present, otherwise run the factory exactly once and memoize its
result, errors included.  The sync.Once firing is recorded in the calls
log. -/
def getOrCreate (s : RState) (key : String)
    (factory : RState → Except GoError Value × RState) :
    Except GoError Value × RState :=
  match alookup s.cache key with
  | some r => (r, s)
  | none =>
    let s1 := { s with calls := s.calls ++ [key] }
    let (r, s2) := factory s1
    (r, { s2 with cache := aupdate s2.cache key r })

/-- resolutionContext: the per-call stack of type keys with a membership
set. -/
structure ResolutionContext where
  stack : List String := []
  seen : List String := []

/-- newResolutionContext() -/
def newResolutionContext : ResolutionContext := {}

/-- resolutionContext.push: on a repeated key the key is appended to the
stack and a CircularDependencyError carrying the whole stack is returned. -/
def ResolutionContext.push (rc : ResolutionContext) (typeName : String) :
    Except GoError ResolutionContext :=
  if typeName ∈ rc.seen then
    .error (.circular (rc.stack ++ [typeName]))
  else
    .ok { stack := rc.stack ++ [typeName], seen := typeName :: rc.seen }

/-- resolutionContext.pop: remove the last key from the stack and that key
from the seen set.  The resolver's deferred pop undoes the matching push, so
the embedding passes the context by value and reuses the pre-push value after
a completed nested call; the lemma pop_push below checks that equivalence. -/
def ResolutionContext.pop (rc : ResolutionContext) : ResolutionContext :=
  match rc.stack.getLast? with
  | none => rc
  | some last => { stack := rc.stack.dropLast, seen := rc.seen.erase last }

/-- The cache key used for a singleton binding: the abstract type, or the
synthetic type+name composite for a named binding. -/
def singletonKey (ty : GoType) (name : String) : String :=
  if name = "" then ty.str else "(" ++ ty.str ++ "|" ++ name ++ ")"

/-- The resolution-path key of makeSafeWithContext. -/
def typeKeyOf (ty : GoType) (name : String) : String :=
  if name = "" then ty.str else ty.str ++ "[" ++ name ++ "]"

mutual

/-- Nasc.makeSafeWithContext: cycle check, binding lookup, then dispatch.
The context is passed by value: a completed call always restores it (push
and the deferred pop are balanced), so callers reuse their own context for
sibling resolutions, exactly as the mutable context behaves in the source.
The first argument is recursion fuel, an embedding artifact. -/
def makeSafeWithContext (reg : Registry) :
    Nat → GoType → String → ResolutionContext → RState →
    Except GoError Value × RState
  | 0, _, _, _, s => (.error .fuel, s)
  | fuel + 1, ty, name, ctx, s =>
    match ctx.push (typeKeyOf ty name) with
    | .error e => (.error e, s)
    | .ok ctx' =>
      match (if name = "" then reg.get ty else reg.getNamed ty name) with
      | .error e => (.error (.resolution ty.str name "" (some e)), s)
      | .ok b => createInstanceSafe reg fuel b ty ctx' s

/-- Nasc.createInstanceSafe: lifetime dispatch of the safe path.  Note the
switch has cases for transient, singleton and factory only; every other
lifetime value, the scoped lifetime included, falls to the default branch
and yields an unknown-lifetime ResolutionError. -/
def createInstanceSafe (reg : Registry) :
    Nat → Binding → GoType → ResolutionContext → RState →
    Except GoError Value × RState
  | 0, _, _, _, s => (.error .fuel, s)
  | fuel + 1, b, ty, ctx, s =>
    if b.lifetime = LifetimeTransient then
      match b.constructor with
      | some info => invokeConstructorSafe reg fuel info ctx s
      | none =>
        match b.concreteType with
        | some ct => let (v, s') := s.newObj ct; (.ok v, s')
        | none => (.error (.resolution ty.str "" "nil concrete type" none), s)
    else if b.lifetime = LifetimeSingleton then
      getOrCreate s (singletonKey ty b.name) (fun s0 =>
        match b.constructor with
        | some info => invokeConstructorSafe reg fuel info ctx s0
        | none =>
          match b.concreteType with
          | some ct => let (v, s') := s0.newObj ct; (.ok v, s')
          | none => (.error (.resolution ty.str "" "nil concrete type" none), s0))
    else if b.lifetime = LifetimeFactory then
      match b.factory with
      | none => (.error (.resolution ty.str "" "invalid factory function" none), s)
      | some res => (res, s)
    else
      (.error (.resolution ty.str "" ("unknown lifetime: " ++ b.lifetime) none), s)

/-- Nasc.invokeConstructorSafe: resolve each parameter type through the same
context, wrap a parameter failure in a ResolutionError naming the parameter,
then call the constructor body and wrap a returned error. -/
def invokeConstructorSafe (reg : Registry) :
    Nat → CtorInfo → ResolutionContext → RState → Except GoError Value × RState
  | 0, _, _, s => (.error .fuel, s)
  | fuel + 1, info, ctx, s =>
    match resolveParamsSafe reg fuel info.returnType info.paramTypes 0 ctx s with
    | (.error e, s') => (.error e, s')
    | (.ok params, s') =>
      let (v, errRes) := info.fn.run params
      if info.returnsError then
        match errRes with
        | some m =>
          (.error (.resolution info.returnType.str "" "constructor returned error"
            (some (.userErr m))), s')
        | none => (.ok v, s')
      else
        (.ok v, s')

/-- The parameter-resolution loop of invokeConstructorSafe, with i the index
of the current parameter. -/
def resolveParamsSafe (reg : Registry) :
    Nat → GoType → List GoType → Nat → ResolutionContext → RState →
    Except GoError (List Value) × RState
  | 0, _, _, _, _, s => (.error .fuel, s)
  | _ + 1, _, [], _, _, s => (.ok [], s)
  | fuel + 1, retTy, p :: rest, i, ctx, s =>
    match makeSafeWithContext reg fuel p "" ctx s with
    | (.error e, s') =>
      (.error (.resolution retTy.str ""
        ("failed to resolve constructor parameter " ++ toString i ++
          " (" ++ p.str ++ ")") (some e)), s')
    | (.ok v, s') =>
      match resolveParamsSafe reg fuel retTy rest (i + 1) ctx s' with
      | (.error e, s'') => (.error e, s'')
      | (.ok vs, s'') => (.ok (v :: vs), s'')

end

/-- Nasc.MakeSafe: safe resolution from a fresh resolution context. -/
def MakeSafe (reg : Registry) (fuel : Nat) (ty : GoType) (s : RState) :
    Except GoError Value × RState :=
  makeSafeWithContext reg fuel ty "" newResolutionContext s

/-- Nasc.MakeNamedSafe for a nonempty name. -/
def MakeNamedSafe (reg : Registry) (fuel : Nat) (ty : GoType) (name : String)
    (s : RState) : Except GoError Value × RState :=
  makeSafeWithContext reg fuel ty name newResolutionContext s

/-- The body of Validate's inner loop for one named binding: a fresh
resolution context, one wrapped error appended on failure. -/
def validateNamedStep (reg : Registry) (fuel : Nat) (ty : GoType)
    (acc2 : List GoError × RState) (name : String) : List GoError × RState :=
  match makeSafeWithContext reg fuel ty name newResolutionContext acc2.2 with
  | (.error e, s') =>
    (acc2.1 ++ [.wrap ("binding " ++ ty.str ++ "[" ++ name ++ "]") e], s')
  | (.ok _, s') => (acc2.1, s')

/-- The body of Validate's loop for one abstract type: check the unnamed
binding when present, then every named binding, each with a fresh resolution
context, appending one wrapped error per failure. -/
def validateStep (reg : Registry) (fuel : Nat)
    (acc : List GoError × RState) (ty : GoType) : List GoError × RState :=
  let (errs0, s0) := acc
  let (errs1, s1) :=
    if reg.hasUnnamedBinding ty then
      match makeSafeWithContext reg fuel ty "" newResolutionContext s0 with
      | (.error e, s') => (errs0 ++ [.wrap ("binding " ++ ty.str) e], s')
      | (.ok _, s') => (errs0, s')
    else (errs0, s0)
  (reg.getAllNamedFor ty).foldl (validateNamedStep reg fuel ty) (errs1, s1)

/-- Nasc.Validate: attempt a safe resolution of every registered unnamed
binding and every (type, name) pair, collecting every failure, and return
one ValidationError aggregating them all (or nil when none failed). -/
def Validate (reg : Registry) (fuel : Nat) (s : RState) :
    Option GoError × RState :=
  let (errs, s') := (reg.getAllTypes).foldl (validateStep reg fuel) ([], s)
  (if errs.isEmpty then none else some (.validation errs), s')

/-- A rendering of an error to a message string, used where the source
interpolates an error with %v into a panic or wrapper message.  The text of
nested causes is elided (no theorem depends on rendered cause text). -/
def GoError.brief : GoError → String
  | .invalidBinding r => "invalid binding: " ++ r
  | .bindingExists t => "binding already exists for type " ++ t
  | .notFound t => "binding not found for type " ++ t
  | .namedNotFound n t => "named binding " ++ n ++ " for type " ++ t ++ " not found"
  | .circular p => "circular dependency detected: " ++ String.intercalate " -> " p
  | .resolution t n c _ =>
    "failed to resolve " ++ t ++ (if n = "" then "" else " (name=" ++ n ++ ")") ++
      (if c = "" then "" else ": " ++ c)
  | .validation errs => "validation failed with " ++ toString errs.length ++ " errors"
  | .wrap p _ => p
  | .userErr m => m
  | .plain m => m
  | .disposal c _ => "scope disposal encountered " ++ toString c ++ " error(s)"
  | .fuel => "out of fuel"

/-- parseConstructor of scope.go: validate that the value is a function with
one or two return values, the first a pointer and the optional second an
error, and capture the ordered parameter types.  Parameter types are NOT
inspected here.  The none argument models a nil constructor; non-function
values cannot be expressed in the typed embedding, so that branch is not
modelled. -/
def parseConstructor : Option GoFunc → Except GoError CtorInfo
  | none => .error (.plain "constructor cannot be nil")
  | some f =>
    match f.outs with
    | [] =>
      .error (.plain "constructor must return (*T) or (*T, error), got 0 return values")
    | ret :: restOuts =>
      if restOuts.length > 1 then
        .error (.plain ("constructor must return (*T) or (*T, error), got " ++
          toString f.outs.length ++ " return values"))
      else if ret.kind ≠ Kind.ptrK then
        .error (.plain "constructor must return a pointer")
      else
        match restOuts with
        | [] =>
          .ok { fn := f, paramTypes := f.params, returnsError := false,
                returnType := ret, numParams := f.params.length }
        | second :: _ =>
          if second.implError then
            .ok { fn := f, paramTypes := f.params, returnsError := true,
                  returnType := ret, numParams := f.params.length }
          else
            .error (.plain ("constructor's second return value must be error, got " ++
              second.str))

mutual

/-- Nasc.Make, the fast path: the error side of the result is a panic with
the given message.  Scoped bindings panic; unknown lifetimes panic. -/
def Make (reg : Registry) : Nat → GoType → RState → Except String Value × RState
  | 0, _, s => (.error "out of fuel", s)
  | fuel + 1, ty, s =>
    match reg.get ty with
    | .error e => (.error ("binding not found for type " ++ ty.str ++ ": " ++ e.brief), s)
    | .ok b =>
      if b.lifetime = LifetimeTransient then
        match b.constructor with
        | some info =>
          match invokeConstructor reg fuel info s with
          | (.error e, s') =>
            (.error ("failed to invoke constructor for type " ++ ty.str ++ ": " ++ e.brief), s')
          | (.ok v, s') => (.ok v, s')
        | none =>
          match b.concreteType with
          | some ct => let (v, s') := s.newObj ct; (.ok v, s')
          | none => (.error ("nil concrete type for " ++ ty.str), s)
      else if b.lifetime = LifetimeSingleton then
        let (r, s') := getOrCreate s ty.str (fun s0 =>
          match b.constructor with
          | some info => invokeConstructor reg fuel info s0
          | none =>
            match b.concreteType with
            | some ct => let (v, s1) := s0.newObj ct; (.ok v, s1)
            | none => (.error (.plain ("nil concrete type for " ++ ty.str)), s0))
        match r with
        | .error e =>
          (.error ("failed to create singleton for type " ++ ty.str ++ ": " ++ e.brief), s')
        | .ok v => (.ok v, s')
      else if b.lifetime = LifetimeFactory then
        match b.factory with
        | none => (.error ("invalid factory function for type " ++ ty.str), s)
        | some (.error e) =>
          (.error ("factory function failed for type " ++ ty.str ++ ": " ++ e.brief), s)
        | some (.ok v) => (.ok v, s)
      else if b.lifetime = LifetimeScoped then
        (.error ("scoped binding for type " ++ ty.str ++
          " must be resolved using Scope.Make(), not container.Make()"), s)
      else
        (.error ("unknown lifetime " ++ b.lifetime ++ " for type " ++ ty.str), s)

/-- invokeConstructor of scope.go, the fast-path invoker: resolve each
parameter through container.Make with a recover converting a panic into an
error, then call the constructor body. -/
def invokeConstructor (reg : Registry) :
    Nat → CtorInfo → RState → Except GoError Value × RState
  | 0, _, s => (.error .fuel, s)
  | fuel + 1, info, s =>
    match resolveParams reg fuel info.paramTypes 0 s with
    | (.error e, s') => (.error e, s')
    | (.ok params, s') =>
      let (v, errRes) := info.fn.run params
      if info.returnsError then
        match errRes with
        | some m => (.error (.wrap "constructor returned error" (.userErr m)), s')
        | none => (.ok v, s')
      else
        (.ok v, s')

/-- The parameter loop of invokeConstructor: a parameter whose type is not an
interface kind fails HERE, at invocation time, with the must-be-an-interface
error; interface parameters are resolved via Make under a recover. -/
def resolveParams (reg : Registry) :
    Nat → List GoType → Nat → RState → Except GoError (List Value) × RState
  | 0, _, _, s => (.error .fuel, s)
  | _ + 1, [], _, s => (.ok [], s)
  | fuel + 1, p :: rest, i, s =>
    if p.kind = Kind.interfaceK then
      match Make reg fuel p s with
      | (.error msg, s') =>
        (.error (.plain ("failed to resolve parameter " ++ toString i ++ ": " ++ msg)), s')
      | (.ok v, s') =>
        match resolveParams reg fuel rest (i + 1) s' with
        | (.error e, s'') => (.error e, s'')
        | (.ok vs, s'') => (.ok (v :: vs), s'')
    else
      (.error (.plain ("constructor parameter " ++ toString i ++
        " must be an interface, got " ++ p.str)), s)

end

/-- Nasc.bindConstructorWithLifetime: parse the constructor, reject an
invalid shape with an InvalidBindingError, and register the binding. -/
def bindConstructorWithLifetime (reg : Registry) (ty : GoType)
    (ctor : Option GoFunc) (lifetime : String) : Option GoError × Registry :=
  match parseConstructor ctor with
  | .error e => (some (.invalidBinding ("invalid constructor: " ++ e.brief)), reg)
  | .ok info =>
    reg.register
      { abstractType := ty, concreteType := some info.returnType,
        lifetime := lifetime, constructor := some info }

/-- Nasc.BindConstructor -/
def BindConstructor (reg : Registry) (ty : GoType) (ctor : Option GoFunc) :
    Option GoError × Registry :=
  bindConstructorWithLifetime reg ty ctor LifetimeTransient

/-- Nasc.SingletonConstructor -/
def SingletonConstructor (reg : Registry) (ty : GoType) (ctor : Option GoFunc) :
    Option GoError × Registry :=
  bindConstructorWithLifetime reg ty ctor LifetimeSingleton

/-- Nasc.ScopedConstructor -/
def ScopedConstructor (reg : Registry) (ty : GoType) (ctor : Option GoFunc) :
    Option GoError × Registry :=
  bindConstructorWithLifetime reg ty ctor LifetimeScoped

mutual

/-- Scope of scope.go: its own instance cache, the creation-order log, the
child scopes and the disposed flag.  The child list is a dedicated inductive
so that scope trees support structural recursion. -/
inductive Scope where
  | mk (instances : List (GoType × Value)) (creationOrder : List Value)
       (children : ScopeChildren) (disposed : Bool)

/-- The list of child scopes. -/
inductive ScopeChildren where
  | nil
  | cons (c : Scope) (rest : ScopeChildren)

end

/-- The instance cache of a scope. -/
def Scope.instances : Scope → List (GoType × Value)
  | .mk insts _ _ _ => insts

/-- The creation-order log of a scope. -/
def Scope.creationOrder : Scope → List Value
  | .mk _ co _ _ => co

/-- The children of a scope. -/
def Scope.children : Scope → ScopeChildren
  | .mk _ _ cs _ => cs

/-- The disposed flag of a scope. -/
def Scope.disposed : Scope → Bool
  | .mk _ _ _ d => d

/-- newScope -/
def newScope : Scope := .mk [] [] .nil false

mutual

/-- Every value recorded in the creation-order log of a scope or of any
scope below it. -/
def Scope.allValues : Scope → List Value
  | .mk _ co cs _ => co ++ cs.allValues

/-- allValues over a child list. -/
def ScopeChildren.allValues : ScopeChildren → List Value
  | .nil => []
  | .cons c rest => c.allValues ++ rest.allValues

end

/-- The instance-disposal loop of Scope.Dispose, applied to the creation
order already reversed: invoke Dispose() on every instance implementing
Disposable, collecting each failure, never stopping early.  Returns the
collected errors and the ordered list of instances whose Dispose() ran. -/
def disposeInstances : List Value → List GoError × List Value
  | [] => ([], [])
  | v :: rest =>
    let r := disposeInstances rest
    match v.ty.disposeB with
    | none => (r.1, r.2)
    | some none => (r.1, v :: r.2)
    | some (some m) =>
      (.wrap ("disposal error for " ++ v.ty.str) (.userErr m) :: r.1, v :: r.2)

mutual

/-- Scope.Dispose: idempotent; first disposes every child scope, collecting
failures, then this scope's own instances in reverse creation order, then
clears the caches and marks the scope disposed, returning one aggregate
error when anything failed.  The third component is the ordered trace of
Dispose() invocations performed. -/
def Scope.dispose : Scope → Option GoError × Scope × List Value
  | .mk insts co cs d =>
    if d then
      (none, .mk insts co cs d, [])
    else
      let childRes := ScopeChildren.disposeAll cs
      let ownRes := disposeInstances co.reverse
      let errs := childRes.1 ++ ownRes.1
      ((if errs.isEmpty then none else some (.disposal errs.length errs)),
        .mk [] [] .nil true, childRes.2 ++ ownRes.2)

/-- The child-disposal loop of Scope.Dispose: each failing child contributes
one wrapped error; disposal continues across failures. -/
def ScopeChildren.disposeAll : ScopeChildren → List GoError × List Value
  | .nil => ([], [])
  | .cons c rest =>
    let r := c.dispose
    let rs := rest.disposeAll
    ((match r.1 with
      | some err => [.wrap "child scope disposal error" err]
      | none => []) ++ rs.1, r.2.2 ++ rs.2)

end

/-- Scope.createInstance: build an instance from the binding, through the
parent container's constructor invoker or reflect.New; the error side is a
panic message. -/
def Scope.createInstance (reg : Registry) (fuel : Nat) (s : RState)
    (b : Binding) (ty : GoType) : Except String Value × RState :=
  match b.constructor with
  | some info =>
    match invokeConstructor reg fuel info s with
    | (.error e, s') =>
      (.error ("failed to invoke constructor for type " ++ ty.str ++ ": " ++ e.brief), s')
    | (.ok v, s') => (.ok v, s')
  | none =>
    match b.concreteType with
    | some ct => let (v, s') := s.newObj ct; (.ok v, s')
    | none => (.error ("nil concrete type for " ++ ty.str), s)

/-- Run the Initializable hook on a freshly built instance when the instance
implements it, logging the invocation; an initialization failure panics. -/
def runInitHook (s : RState) (v : Value) (ty : GoType) :
    Except String Value × RState :=
  match v.ty.initB with
  | none => (.ok v, s)
  | some none => (.ok v, { s with inits := s.inits ++ [v] })
  | some (some m) =>
    (.error ("failed to initialize instance of type " ++ ty.str ++ ": " ++ m),
      { s with inits := s.inits ++ [v] })

/-- Scope.Make: panic when the scope is disposed or the binding is missing;
scoped instances are cached per scope, with the freshly built instance
inserted into the cache and the creation-order log BEFORE its Initialize
hook runs; a cached instance is returned directly without touching the
hook; singleton and factory lifetimes delegate to the container's Make;
transient builds are not cached; other lifetimes panic. -/
def Scope.scopeMake (sc : Scope) (reg : Registry) (fuel : Nat) (s : RState)
    (ty : GoType) : Except String Value × RState × Scope :=
  if sc.disposed then
    (.error "cannot resolve from disposed scope", s, sc)
  else
    match reg.get ty with
    | .error e =>
      (.error ("binding not found for type " ++ ty.str ++ ": " ++ e.brief), s, sc)
    | .ok b =>
      if b.lifetime = LifetimeScoped then
        match alookup sc.instances ty with
        | some inst => (.ok inst, s, sc)
        | none =>
          match Scope.createInstance reg fuel s b ty with
          | (.error msg, s') => (.error msg, s', sc)
          | (.ok v, s') =>
            let sc' : Scope := .mk (aupdate sc.instances ty v)
              (sc.creationOrder ++ [v]) sc.children sc.disposed
            let (r, s'') := runInitHook s' v ty
            (r, s'', sc')
      else if b.lifetime = LifetimeSingleton then
        let (r, s') := Make reg fuel ty s
        (r, s', sc)
      else if b.lifetime = LifetimeFactory then
        let (r, s') := Make reg fuel ty s
        (r, s', sc)
      else if b.lifetime = LifetimeTransient then
        match Scope.createInstance reg fuel s b ty with
        | (.error msg, s') => (.error msg, s', sc)
        | (.ok v, s') =>
          let (r, s'') := runInitHook s' v ty
          (r, s'', sc)
      else
        (.error ("unknown lifetime: " ++ b.lifetime), s, sc)

/-- The circular-dependency paths reachable through the Cause/Unwrap chain of
an error, mirroring how errors.As extracts a CircularDependencyError from
the error MakeSafe returns.  (Validation aggregates never occur inside a
MakeSafe error, so the validation case is not traversed.) -/
def circPaths : GoError → List (List String)
  | .circular p => [p]
  | .resolution _ _ _ (some c) => circPaths c
  | .wrap _ c => circPaths c
  | _ => []

/-! Concrete fixtures mirroring the test types of errors_test.go: the
interfaces ServiceA/B/C and their pointer-to-struct implementations, with
constructors wired into the dependency cycles the spec describes. -/

/-- The interface type nasc.ServiceA. -/
def svcA : GoType := { str := "nasc.ServiceA", kind := .interfaceK }

/-- The interface type nasc.ServiceB. -/
def svcB : GoType := { str := "nasc.ServiceB", kind := .interfaceK }

/-- The interface type nasc.ServiceC. -/
def svcC : GoType := { str := "nasc.ServiceC", kind := .interfaceK }

/-- The pointer type *nasc.ServiceAImpl. -/
def implA : GoType := { str := "*nasc.ServiceAImpl", kind := .ptrK }

/-- The pointer type *nasc.ServiceBImpl. -/
def implB : GoType := { str := "*nasc.ServiceBImpl", kind := .ptrK }

/-- The pointer type *nasc.ServiceCImpl. -/
def implC : GoType := { str := "*nasc.ServiceCImpl", kind := .ptrK }

/-- NewServiceA(b ServiceB) *nasc.ServiceAImpl -/
def ctorAofB : GoFunc :=
  { params := [svcB], outs := [implA], run := fun _ => (⟨implA, 0⟩, none) }

/-- NewServiceB(c ServiceC) *nasc.ServiceBImpl -/
def ctorBofC : GoFunc :=
  { params := [svcC], outs := [implB], run := fun _ => (⟨implB, 0⟩, none) }

/-- NewServiceC(a ServiceA) *nasc.ServiceCImpl -/
def ctorCofA : GoFunc :=
  { params := [svcA], outs := [implC], run := fun _ => (⟨implC, 0⟩, none) }

/-- NewServiceB(a ServiceA) *nasc.ServiceBImpl, for the direct 2-cycle -/
def ctorBofA : GoFunc :=
  { params := [svcA], outs := [implB], run := fun _ => (⟨implB, 0⟩, none) }

/-- A container with the 3-node constructor cycle A -> B -> C -> A. -/
def regCycle3 : Registry :=
  (BindConstructor
    (BindConstructor
      (BindConstructor Registry.empty svcA (some ctorAofB)).2
      svcB (some ctorBofC)).2
    svcC (some ctorCofA)).2

/-- A container with the direct 2-node constructor cycle A -> B -> A. -/
def regCycle2 : Registry :=
  (BindConstructor
    (BindConstructor Registry.empty svcA (some ctorAofB)).2
    svcB (some ctorBofA)).2

/-- A registration call: Register or RegisterNamed. -/
inductive RegOp where
  | reg (b : Binding)
  | regNamed (b : Binding)

/-- Apply one registration call, keeping the registry whether or not the
call failed (a failed call leaves the registry as it was). -/
def applyOp (r : Registry) : RegOp → Registry
  | .reg b => (r.register b).2
  | .regNamed b => (r.registerNamed b).2

/-- Apply a whole sequence of registration calls to a registry. -/
def applyOps : Registry → List RegOp → Registry :=
  List.foldl applyOp

/-- The registry invariant of the spec: at most one unnamed binding per
abstract type, at most one named-binding table per abstract type, and
pairwise-distinct names within each table. -/
def RegistryInv (r : Registry) : Prop :=
  (r.bindings.map Prod.fst).Nodup ∧
  (r.namedBindings.map Prod.fst).Nodup ∧
  ∀ p ∈ r.namedBindings, (p.2.map Prod.fst).Nodup

/-- A transient unnamed binding of ServiceA to its implementation. -/
def bindU : Binding :=
  { abstractType := svcA, concreteType := some implA, lifetime := LifetimeTransient }

/-- ServiceA bound under the name file. -/
def bindN1 : Binding :=
  { abstractType := svcA, concreteType := some implA,
    lifetime := LifetimeTransient, name := "file" }

/-- ServiceA bound under the name console. -/
def bindN2 : Binding :=
  { abstractType := svcA, concreteType := some implB,
    lifetime := LifetimeTransient, name := "console" }

/-- The registry holding the unnamed ServiceA binding. -/
def regOneU : Registry := (Registry.empty.register bindU).2

/-- The interface type nasc.ServiceF with a failing singleton constructor. -/
def svcF : GoType := { str := "nasc.ServiceF", kind := .interfaceK }

/-- The pointer type *nasc.ServiceFImpl. -/
def implF : GoType := { str := "*nasc.ServiceFImpl", kind := .ptrK }

/-- The Go error interface type. -/
def errType : GoType := { str := "error", kind := .interfaceK, implError := true }

/-- A constructor returning (*nasc.ServiceFImpl, error) that always fails. -/
def ctorFail : GoFunc :=
  { params := [], outs := [implF, errType],
    run := fun _ => (⟨implF, 0⟩, some "construction failed") }

/-- The parsed constructorInfo of ctorFail. -/
def infoFail : CtorInfo :=
  { fn := ctorFail, paramTypes := [], returnsError := true,
    returnType := implF, numParams := 0 }

/-- A singleton binding of ServiceF through the failing constructor. -/
def bindFailSingleton : Binding :=
  { abstractType := svcF, concreteType := some implF,
    lifetime := LifetimeSingleton, constructor := some infoFail }

/-- A scoped binding of ServiceA to its implementation. -/
def bindScopedA : Binding :=
  { abstractType := svcA, concreteType := some implA, lifetime := LifetimeScoped }

/-- A container holding only the scoped ServiceA binding. -/
def regScoped : Registry := (Registry.empty.register bindScopedA).2

/-- The parsed constructorInfo of ctorAofB. -/
def infoA3 : CtorInfo :=
  { fn := ctorAofB, paramTypes := [svcB], returnsError := false,
    returnType := implA, numParams := 1 }

/-- The parsed constructorInfo of ctorBofC. -/
def infoB3 : CtorInfo :=
  { fn := ctorBofC, paramTypes := [svcC], returnsError := false,
    returnType := implB, numParams := 1 }

/-- The parsed constructorInfo of ctorCofA. -/
def infoC3 : CtorInfo :=
  { fn := ctorCofA, paramTypes := [svcA], returnsError := false,
    returnType := implC, numParams := 1 }

/-- The parsed constructorInfo of ctorBofA. -/
def infoB2 : CtorInfo :=
  { fn := ctorBofA, paramTypes := [svcA], returnsError := false,
    returnType := implB, numParams := 1 }

/-- The registered binding of ServiceA in the cycle containers. -/
def bndA3 : Binding :=
  { abstractType := svcA, concreteType := some implA,
    lifetime := LifetimeTransient, constructor := some infoA3 }

/-- The registered binding of ServiceB in the 3-cycle container. -/
def bndB3 : Binding :=
  { abstractType := svcB, concreteType := some implB,
    lifetime := LifetimeTransient, constructor := some infoB3 }

/-- The registered binding of ServiceC in the 3-cycle container. -/
def bndC3 : Binding :=
  { abstractType := svcC, concreteType := some implC,
    lifetime := LifetimeTransient, constructor := some infoC3 }

/-- The registered binding of ServiceB in the 2-cycle container. -/
def bndB2 : Binding :=
  { abstractType := svcB, concreteType := some implB,
    lifetime := LifetimeTransient, constructor := some infoB2 }

/-! Fixtures for validation: three independently broken bindings — one with a
missing dependency, one with a (self-)cycle, one with a failing
constructor. -/

/-- The interface type nasc.Broken1 (constructor depends on an unbound type). -/
def brk1 : GoType := { str := "nasc.Broken1", kind := .interfaceK }

/-- The pointer type *nasc.Broken1Impl. -/
def implBrk1 : GoType := { str := "*nasc.Broken1Impl", kind := .ptrK }

/-- The interface type nasc.Missing, never registered. -/
def missT : GoType := { str := "nasc.Missing", kind := .interfaceK }

/-- The interface type nasc.Broken2 (constructor depends on itself). -/
def brk2 : GoType := { str := "nasc.Broken2", kind := .interfaceK }

/-- The pointer type *nasc.Broken2Impl. -/
def implBrk2 : GoType := { str := "*nasc.Broken2Impl", kind := .ptrK }

/-- The interface type nasc.Broken3 (constructor returns an error). -/
def brk3 : GoType := { str := "nasc.Broken3", kind := .interfaceK }

/-- The pointer type *nasc.Broken3Impl. -/
def implBrk3 : GoType := { str := "*nasc.Broken3Impl", kind := .ptrK }

/-- Constructor of Broken1, depending on the missing type. -/
def ctorBrk1 : GoFunc :=
  { params := [missT], outs := [implBrk1], run := fun _ => (⟨implBrk1, 0⟩, none) }

/-- Constructor of Broken2, depending on Broken2 itself. -/
def ctorBrk2 : GoFunc :=
  { params := [brk2], outs := [implBrk2], run := fun _ => (⟨implBrk2, 0⟩, none) }

/-- Constructor of Broken3, always returning an error. -/
def ctorBrk3 : GoFunc :=
  { params := [], outs := [implBrk3, errType],
    run := fun _ => (⟨implBrk3, 0⟩, some "constructor failed") }

/-- The container holding the three broken bindings. -/
def regBroken : Registry :=
  (BindConstructor
    (BindConstructor
      (BindConstructor Registry.empty brk1 (some ctorBrk1)).2
      brk2 (some ctorBrk2)).2
    brk3 (some ctorBrk3)).2

/-- The concrete (non-interface) Go type int. -/
def intT : GoType := { str := "int", kind := .intK }

/-- The interface type nasc.ServiceS. -/
def svcS : GoType := { str := "nasc.ServiceS", kind := .interfaceK }

/-- The pointer type *nasc.ServiceSImpl. -/
def implS : GoType := { str := "*nasc.ServiceSImpl", kind := .ptrK }

/-- A constructor taking a concrete int parameter: func(int) *ServiceSImpl. -/
def ctorIntParam : GoFunc :=
  { params := [intT], outs := [implS], run := fun _ => (⟨implS, 0⟩, none) }

/-- The container after BindConstructor with the int-parameter constructor. -/
def regIntParam : Registry :=
  (BindConstructor Registry.empty svcS (some ctorIntParam)).2

/-- The interface type nasc.UnitOfWork. -/
def uowT : GoType := { str := "nasc.UnitOfWork", kind := .interfaceK }

/-- The pointer type *nasc.DbUnitOfWork, Initializable with a failing
Initialize. -/
def implUow : GoType :=
  { str := "*nasc.DbUnitOfWork", kind := .ptrK, initB := some (some "init failed") }

/-- The scoped binding of UnitOfWork. -/
def bindScopedUow : Binding :=
  { abstractType := uowT, concreteType := some implUow, lifetime := LifetimeScoped }

/-- A container holding the scoped UnitOfWork binding. -/
def regScopedUow : Registry := (Registry.empty.register bindScopedUow).2

/-- The wrapped error Scope.Dispose records when an instance's Dispose()
fails; none when that instance's cleanup cannot fail. -/
def disposeFailureOf (v : Value) : Option GoError :=
  match v.ty.disposeB with
  | some (some m) => some (.wrap ("disposal error for " ++ v.ty.str) (.userErr m))
  | _ => none

/-- A Disposable concrete type whose Dispose succeeds. -/
def dispoT1 : GoType := { str := "*nasc.ResA", kind := .ptrK, disposeB := some none }

/-- A Disposable concrete type whose Dispose fails. -/
def dispoT2 : GoType :=
  { str := "*nasc.ResB", kind := .ptrK, disposeB := some (some "close failed") }

/-- The instance created first in the witness scope. -/
def valX : Value := ⟨dispoT1, 0⟩

/-- The instance created second in the witness scope. -/
def valY : Value := ⟨dispoT2, 1⟩

section AssocLemmas

variable {α β : Type} [DecidableEq α]

theorem alookup_eq_none_iff (l : List (α × β)) (a : α) :
    alookup l a = none ↔ a ∉ l.map Prod.fst := by
  induction l with
  | nil => simp [alookup]
  | cons p rest ih =>
    obtain ⟨k, v⟩ := p
    by_cases hk : k = a
    · subst hk
      simp [alookup]
    · simp [alookup, hk, ih, Ne.symm hk]

theorem alookup_some_mem {l : List (α × β)} {a : α} {v : β}
    (h : alookup l a = some v) : (a, v) ∈ l := by
  induction l with
  | nil => simp [alookup] at h
  | cons p rest ih =>
    obtain ⟨k, w⟩ := p
    by_cases hk : k = a
    · subst hk
      simp [alookup] at h
      simp [h]
    · simp [alookup, hk] at h
      simp [ih h]

theorem alookup_append_of_none {l₁ : List (α × β)} {a : α}
    (h : alookup l₁ a = none) (l₂ : List (α × β)) :
    alookup (l₁ ++ l₂) a = alookup l₂ a := by
  induction l₁ with
  | nil => simp
  | cons p rest ih =>
    obtain ⟨k, w⟩ := p
    by_cases hk : k = a
    · subst hk; simp [alookup] at h
    · simp [alookup, hk] at h ⊢
      exact ih h

theorem alookup_cons_self (a : α) (v : β) (l : List (α × β)) :
    alookup ((a, v) :: l) a = some v := by
  simp [alookup]

theorem alookup_aupdate_self (l : List (α × β)) (a : α) (v : β) :
    alookup (aupdate l a v) a = some v := by
  induction l with
  | nil => simp [aupdate, alookup]
  | cons p rest ih =>
    obtain ⟨k, w⟩ := p
    by_cases hk : k = a
    · subst hk; simp [aupdate, alookup]
    · simp [aupdate, alookup, hk, ih]

theorem alookup_aupdate_ne (l : List (α × β)) {a a' : α} (v : β)
    (h : a ≠ a') : alookup (aupdate l a v) a' = alookup l a' := by
  induction l with
  | nil => simp [aupdate, alookup, h]
  | cons p rest ih =>
    obtain ⟨k, w⟩ := p
    by_cases hk : k = a
    · subst hk; simp [aupdate, alookup, h]
    · simp [aupdate, alookup, hk, ih]

theorem aupdate_keys_of_mem {l : List (α × β)} {a : α} (v : β)
    (h : a ∈ l.map Prod.fst) :
    (aupdate l a v).map Prod.fst = l.map Prod.fst := by
  induction l with
  | nil => simp at h
  | cons p rest ih =>
    obtain ⟨k, w⟩ := p
    by_cases hk : k = a
    · subst hk; simp [aupdate]
    · rw [List.map_cons] at h
      rcases List.mem_cons.mp h with h' | h'
      · exact absurd h'.symm hk
      · simp [aupdate, hk, ih h']

theorem aupdate_keys_of_not_mem {l : List (α × β)} {a : α} (v : β)
    (h : a ∉ l.map Prod.fst) :
    (aupdate l a v).map Prod.fst = l.map Prod.fst ++ [a] := by
  induction l with
  | nil => simp [aupdate]
  | cons p rest ih =>
    obtain ⟨k, w⟩ := p
    rw [List.map_cons] at h
    simp only [List.mem_cons, not_or] at h
    have hk : k ≠ a := fun hh => h.1 hh.symm
    simp [aupdate, hk, ih h.2]

theorem mem_aupdate {l : List (α × β)} {a : α} {v : β} {p : α × β}
    (h : p ∈ aupdate l a v) : p = (a, v) ∨ p ∈ l := by
  induction l with
  | nil => simpa [aupdate] using h
  | cons q rest ih =>
    obtain ⟨k, w⟩ := q
    by_cases hk : k = a
    · subst hk
      simp only [aupdate, if_pos rfl] at h
      rcases List.mem_cons.mp h with h' | h'
      · exact Or.inl h'
      · exact Or.inr (List.mem_cons_of_mem _ h')
    · simp only [aupdate, if_neg hk] at h
      rcases List.mem_cons.mp h with h' | h'
      · exact Or.inr (h' ▸ List.mem_cons_self _ _)
      · rcases ih h' with h'' | h''
        · exact Or.inl h''
        · exact Or.inr (List.mem_cons_of_mem _ h'')

end AssocLemmas

/-- Registry.Register preserves the registry invariant. -/
theorem register_preserves_inv (r : Registry) (b : Binding)
    (h : RegistryInv r) : RegistryInv (r.register b).2 := by
  obtain ⟨h1, h2, h3⟩ := h
  by_cases hdup : (alookup r.bindings b.abstractType).isSome = true
  · have hr : (r.register b).2 = r := by simp [Registry.register, hdup]
    rw [hr]; exact ⟨h1, h2, h3⟩
  · have hnone : alookup r.bindings b.abstractType = none := by
      cases hh : alookup r.bindings b.abstractType with
      | none => rfl
      | some v => rw [hh] at hdup; simp at hdup
    have hnm : b.abstractType ∉ r.bindings.map Prod.fst :=
      (alookup_eq_none_iff _ _).mp hnone
    have hr : (r.register b).2 =
        { r with bindings := r.bindings ++ [(b.abstractType, b)] } := by
      simp [Registry.register, hdup]
    rw [hr]
    refine ⟨?_, h2, h3⟩
    simp [List.nodup_append, h1, hnm]

/-- Registry.RegisterNamed preserves the registry invariant. -/
theorem registerNamed_preserves_inv (r : Registry) (b : Binding)
    (h : RegistryInv r) : RegistryInv (r.registerNamed b).2 := by
  obtain ⟨h1, h2, h3⟩ := h
  by_cases hname : b.name = ""
  · have hr : (r.registerNamed b).2 = r := by simp [Registry.registerNamed, hname]
    rw [hr]; exact ⟨h1, h2, h3⟩
  · set m := (alookup r.namedBindings b.abstractType).getD [] with hm
    by_cases hdup : (alookup m b.name).isSome = true
    · have hr : (r.registerNamed b).2 = r := by
        simp [Registry.registerNamed, hname, ← hm, hdup]
      rw [hr]; exact ⟨h1, h2, h3⟩
    · have hnone : alookup m b.name = none := by
        cases hh : alookup m b.name with
        | none => rfl
        | some v => rw [hh] at hdup; simp at hdup
      have hnmem : b.name ∉ m.map Prod.fst := (alookup_eq_none_iff _ _).mp hnone
      have hmnodup : (m.map Prod.fst).Nodup := by
        cases hh : alookup r.namedBindings b.abstractType with
        | none => simp [hm, hh]
        | some m0 =>
          have := h3 _ (alookup_some_mem hh)
          simpa [hm, hh] using this
      have hr : (r.registerNamed b).2 =
          { r with namedBindings :=
              aupdate r.namedBindings b.abstractType (m ++ [(b.name, b)]) } := by
        simp [Registry.registerNamed, hname, ← hm, hdup]
      rw [hr]
      refine ⟨h1, ?_, ?_⟩
      · by_cases hkey : b.abstractType ∈ r.namedBindings.map Prod.fst
        · show ((aupdate r.namedBindings b.abstractType _).map Prod.fst).Nodup
          rw [aupdate_keys_of_mem _ hkey]; exact h2
        · show ((aupdate r.namedBindings b.abstractType _).map Prod.fst).Nodup
          rw [aupdate_keys_of_not_mem _ hkey]
          simp [List.nodup_append, h2, hkey]
      · intro p hp
        rcases mem_aupdate hp with hp' | hp'
        · subst hp'
          simp [List.nodup_append, hmnodup, hnmem]
        · exact h3 _ hp'

/-- One registration call preserves the invariant. -/
theorem applyOp_inv (r : Registry) (op : RegOp) (h : RegistryInv r) :
    RegistryInv (applyOp r op) := by
  cases op with
  | reg b => exact register_preserves_inv r b h
  | regNamed b => exact registerNamed_preserves_inv r b h

/-- A sequence of registration calls preserves the invariant. -/
theorem applyOps_inv_of (ops : List RegOp) :
    ∀ r : Registry, RegistryInv r → RegistryInv (applyOps r ops) := by
  induction ops with
  | nil => intro r h; exact h
  | cons op rest ih =>
    intro r h
    exact ih _ (applyOp_inv r op h)

/-- A registry built from any operation sequence satisfies the invariant. -/
theorem applyOps_inv (ops : List RegOp) :
    RegistryInv (applyOps Registry.empty ops) := by
  refine applyOps_inv_of ops _ ?_
  refine ⟨?_, ?_, ?_⟩ <;> simp [Registry.empty]

/-- C2: every sequence of Register and RegisterNamed operations preserves the
registry invariant (one unnamed binding per abstract type, pairwise-distinct
names per type); a second Register for an already-bound abstract type fails
with the duplicate-binding error and leaves the registry unchanged; a second
RegisterNamed for the same (type, name) pair fails and leaves the registry
unchanged; registering one abstract type under two different names succeeds
and each name resolves independently through GetNamed. -/
theorem c2_registry_invariant_and_duplicates :
    (∀ ops : List RegOp, RegistryInv (applyOps Registry.empty ops)) ∧
    (∀ (r : Registry) (b b0 : Binding),
      alookup r.bindings b.abstractType = some b0 →
      r.register b = (some (.bindingExists b.abstractType.str), r)) ∧
    (∀ (r : Registry) (b b0 : Binding), b.name ≠ "" →
      alookup ((alookup r.namedBindings b.abstractType).getD []) b.name = some b0 →
      r.registerNamed b = (some (.plain ("named binding " ++ b.name ++
        " for type " ++ b.abstractType.str ++ " already exists")), r)) ∧
    (∀ (r : Registry) (b1 b2 : Binding) (t : GoType),
      b1.abstractType = t → b2.abstractType = t →
      b1.name ≠ "" → b2.name ≠ "" → b1.name ≠ b2.name →
      alookup ((alookup r.namedBindings t).getD []) b1.name = none →
      alookup ((alookup r.namedBindings t).getD []) b2.name = none →
      (r.registerNamed b1).1 = none ∧
      ((r.registerNamed b1).2.registerNamed b2).1 = none ∧
      ((r.registerNamed b1).2.registerNamed b2).2.getNamed t b1.name = .ok b1 ∧
      ((r.registerNamed b1).2.registerNamed b2).2.getNamed t b2.name = .ok b2) := by
  refine ⟨applyOps_inv, ?_, ?_, ?_⟩
  · intro r b b0 hdup
    simp [Registry.register, hdup]
  · intro r b b0 hname hdup
    simp [Registry.registerNamed, hname, hdup]
  · intro r b1 b2 t ht1 ht2 hn1 hn2 hne hf1 hf2
    set m := (alookup r.namedBindings t).getD [] with hm
    have hr1 : r.registerNamed b1 =
        (none, { r with namedBindings := aupdate r.namedBindings t (m ++ [(b1.name, b1)]) }) := by
      simp [Registry.registerNamed, hn1, ht1, ← hm, hf1]
    set m1 := m ++ [(b1.name, b1)] with hm1
    have hl1 : alookup (aupdate r.namedBindings t m1) t = some m1 :=
      alookup_aupdate_self _ _ _
    have hf2' : alookup m1 b2.name = none := by
      rw [hm1, alookup_append_of_none hf2]
      simp [alookup, hne]
    have hr2 : ({ r with namedBindings := aupdate r.namedBindings t m1 } :
        Registry).registerNamed b2 =
        (none,
          { r with
            namedBindings :=
              aupdate (aupdate r.namedBindings t m1) t (m1 ++ [(b2.name, b2)]) }) := by
      simp [Registry.registerNamed, hn2, ht2, hl1, hf2']
    set m2 := m1 ++ [(b2.name, b2)] with hm2
    have hl2 : alookup (aupdate (aupdate r.namedBindings t m1) t m2) t = some m2 :=
      alookup_aupdate_self _ _ _
    have hg1 : alookup m2 b1.name = some b1 := by
      rw [hm2, hm1, List.append_assoc, alookup_append_of_none hf1]
      simp [alookup]
    have hg2 : alookup m2 b2.name = some b2 := by
      rw [hm2, hm1, List.append_assoc, alookup_append_of_none hf2]
      simp [alookup, hne]
    refine ⟨?_, ?_, ?_, ?_⟩
    · rw [hr1]
    · rw [hr1, hr2]
    · rw [hr1, hr2]
      simp [Registry.getNamed, hl2, hg1]
    · rw [hr1, hr2]
      simp [Registry.getNamed, hl2, hg2]

/-- Witness for C2 at concrete inputs. -/
theorem c2_witness :
    RegistryInv (applyOps Registry.empty [.reg bindU, .regNamed bindN1]) ∧
    regOneU.register bindU = (some (.bindingExists "nasc.ServiceA"), regOneU) ∧
    ((Registry.empty.registerNamed bindN1).2.registerNamed bindN1 =
      (some (.plain ("named binding file for type nasc.ServiceA already exists")),
        (Registry.empty.registerNamed bindN1).2)) ∧
    (Registry.empty.registerNamed bindN1).1 = none ∧
    ((Registry.empty.registerNamed bindN1).2.registerNamed bindN2).1 = none ∧
    ((Registry.empty.registerNamed bindN1).2.registerNamed bindN2).2.getNamed
      svcA "file" = .ok bindN1 ∧
    ((Registry.empty.registerNamed bindN1).2.registerNamed bindN2).2.getNamed
      svcA "console" = .ok bindN2 := by
  have h := c2_registry_invariant_and_duplicates
  have hdup := h.2.1 regOneU bindU bindU (by rfl)
  have hdupN := h.2.2.1 (Registry.empty.registerNamed bindN1).2 bindN1 bindN1
    (by decide) (by rfl)
  have htwo := h.2.2.2 Registry.empty bindN1 bindN2 svcA rfl rfl
    (by decide) (by decide) (by decide) (by rfl) (by rfl)
  exact ⟨h.1 _, by simpa [bindU] using hdup, by simpa [bindN1] using hdupN,
    htwo.1, htwo.2.1, htwo.2.2.1, htwo.2.2.2⟩

/-- C3: the singleton cache runs the constructing factory at most once per
key: a memoized entry is returned without running any factory; when the
first construction fails, the error is memoized, every later getOrCreate
for that key returns the same error without invoking its factory, and any
singleton binding resolved against a cache holding that memoized error
yields the same error without touching the state. -/
theorem c3_singleton_error_memoized (s : RState) (key : String)
    (factory : RState → Except GoError Value × RState) (e : GoError)
    (h0 : alookup s.cache key = none)
    (hf : (factory { s with calls := s.calls ++ [key] }).1 = .error e) :
    (∀ (s0 : RState) (r : Except GoError Value)
       (g : RState → Except GoError Value × RState),
       alookup s0.cache key = some r → getOrCreate s0 key g = (r, s0)) ∧
    (getOrCreate s key factory).1 = .error e ∧
    alookup (getOrCreate s key factory).2.cache key = some (.error e) ∧
    (∀ g : RState → Except GoError Value × RState,
      getOrCreate (getOrCreate s key factory).2 key g =
        (.error e, (getOrCreate s key factory).2)) ∧
    (∀ (reg : Registry) (fuel : Nat) (b : Binding) (ty : GoType)
       (ctx : ResolutionContext) (s2 : RState),
       b.lifetime = LifetimeSingleton →
       alookup s2.cache (singletonKey ty b.name) = some (.error e) →
       createInstanceSafe reg (fuel + 1) b ty ctx s2 = (.error e, s2)) := by
  have hhit : ∀ (s0 : RState) (r : Except GoError Value)
      (g : RState → Except GoError Value × RState),
      alookup s0.cache key = some r → getOrCreate s0 key g = (r, s0) := by
    intro s0 r g hr
    unfold getOrCreate
    rw [hr]
  have hfp : factory { s with calls := s.calls ++ [key] } =
      (.error e, (factory { s with calls := s.calls ++ [key] }).2) := by
    rw [← hf]
  have h1 : getOrCreate s key factory =
      (.error e,
        { (factory { s with calls := s.calls ++ [key] }).2 with
          cache := aupdate (factory { s with calls := s.calls ++ [key] }).2.cache
            key (.error e) }) := by
    simp only [getOrCreate, h0]
    rw [hfp]
  have h2 : alookup (getOrCreate s key factory).2.cache key = some (.error e) := by
    rw [h1]
    exact alookup_aupdate_self _ _ _
  refine ⟨hhit, by rw [h1], h2, fun g => hhit _ _ g h2, ?_⟩
  intro reg fuel b ty ctx s2 hl hmem
  unfold createInstanceSafe
  rw [hl]
  have e1 : LifetimeSingleton ≠ LifetimeTransient := by decide
  rw [if_neg e1, if_pos rfl]
  unfold getOrCreate
  rw [hmem]

/-- Witness for C3 at concrete inputs: a failing singleton constructor whose
error is memoized; a later getOrCreate with a succeeding factory still
returns the memoized error, and the singleton binding resolved against the
memoized cache yields that error. -/
theorem c3_witness :
    (getOrCreate {} "k" (fun st => (.error (.userErr "boom"), st))).1 =
      .error (.userErr "boom") ∧
    alookup (getOrCreate {} "k" (fun st => (.error (.userErr "boom"), st))).2.cache
      "k" = some (.error (.userErr "boom")) ∧
    getOrCreate (getOrCreate {} "k" (fun st => (.error (.userErr "boom"), st))).2
      "k" (fun st => (.ok ⟨implF, 7⟩, st)) =
      (.error (.userErr "boom"),
        (getOrCreate {} "k" (fun st => (.error (.userErr "boom"), st))).2) ∧
    createInstanceSafe Registry.empty 5 bindFailSingleton svcF newResolutionContext
      { cache := [("nasc.ServiceF", .error (.userErr "boom"))] } =
      (.error (.userErr "boom"),
        { cache := [("nasc.ServiceF", .error (.userErr "boom"))] }) := by
  have h := c3_singleton_error_memoized {} "k"
    (fun st => (.error (.userErr "boom"), st)) (.userErr "boom") (by rfl) (by rfl)
  refine ⟨h.2.1, h.2.2.1, h.2.2.2.1 _, ?_⟩
  exact h.2.2.2.2 Registry.empty 4 bindFailSingleton svcF newResolutionContext
    { cache := [("nasc.ServiceF", .error (.userErr "boom"))] } rfl (by rfl)

/-- A safe resolution of a scoped binding, from a fresh context, always
returns the unknown-lifetime ResolutionError and leaves the state untouched,
because the dispatch of createInstanceSafe has no case for the scoped
lifetime. -/
theorem makeSafe_scoped_unknown_lifetime (reg : Registry) (ty : GoType)
    (b : Binding) (name : String) (fuel : Nat) (s : RState)
    (hb : (if name = "" then reg.get ty else reg.getNamed ty name) = .ok b)
    (hl : b.lifetime = LifetimeScoped) :
    makeSafeWithContext reg (fuel + 2) ty name newResolutionContext s =
      (.error (.resolution ty.str "" "unknown lifetime: scoped" none), s) := by
  have hT : LifetimeScoped ≠ LifetimeTransient := by decide
  have hS : LifetimeScoped ≠ LifetimeSingleton := by decide
  have hF : LifetimeScoped ≠ LifetimeFactory := by decide
  have hpush : newResolutionContext.push (typeKeyOf ty name) =
      .ok { stack := [typeKeyOf ty name], seen := [typeKeyOf ty name] } := by
    simp [ResolutionContext.push, newResolutionContext]
  rw [show fuel + 2 = (fuel + 1) + 1 from rfl]
  simp only [makeSafeWithContext, hpush, hb]
  simp only [createInstanceSafe]
  rw [hl, if_neg hT, if_neg hS, if_neg hF]
  rfl

/-- C4: a binding with scoped lifetime resolved directly through the
container fails fast: Make panics with the scoped-binding message instead
of returning an instance, and MakeSafe returns a structured ResolutionError
instead of an instance. -/
theorem c4_scoped_direct_resolution_fails (reg : Registry) (s : RState)
    (fuel : Nat) (ty : GoType) (b : Binding)
    (hb : reg.get ty = .ok b) (hl : b.lifetime = LifetimeScoped) :
    (Make reg (fuel + 1) ty s).1 =
      .error ("scoped binding for type " ++ ty.str ++
        " must be resolved using Scope.Make(), not container.Make()") ∧
    (MakeSafe reg (fuel + 2) ty s).1 =
      .error (.resolution ty.str "" "unknown lifetime: scoped" none) := by
  have hT : LifetimeScoped ≠ LifetimeTransient := by decide
  have hS : LifetimeScoped ≠ LifetimeSingleton := by decide
  have hF : LifetimeScoped ≠ LifetimeFactory := by decide
  constructor
  · simp only [Make, hb]
    rw [hl, if_neg hT, if_neg hS, if_neg hF, if_pos rfl]
  · have hb' : (if ("" : String) = "" then reg.get ty else reg.getNamed ty "") =
        .ok b := by simpa using hb
    unfold MakeSafe
    rw [makeSafe_scoped_unknown_lifetime reg ty b "" fuel s hb' hl]

/-- Witness for C4 at the concrete scoped container. -/
theorem c4_witness :
    (Make regScoped 1 svcA {}).1 =
      .error ("scoped binding for type nasc.ServiceA must be resolved using Scope.Make(), not container.Make()") ∧
    (MakeSafe regScoped 2 svcA {}).1 =
      .error (.resolution "nasc.ServiceA" "" "unknown lifetime: scoped" none) := by
  have h := c4_scoped_direct_resolution_fails regScoped {} 0 svcA bindScopedA
    (by rfl) rfl
  exact h

theorem mem_foldl_addUnseen (l : List GoType) :
    ∀ (acc : List GoType) (a : GoType), a ∈ acc ∨ a ∈ l →
      a ∈ l.foldl (fun acc2 k => if k ∈ acc2 then acc2 else acc2 ++ [k]) acc := by
  induction l with
  | nil =>
    intro acc a h
    rcases h with h | h
    · simpa using h
    · simp at h
  | cons k rest ih =>
    intro acc a h
    have hstep : a ∈ acc ∨ a = k → a ∈ (if k ∈ acc then acc else acc ++ [k]) := by
      intro hh
      by_cases hk : k ∈ acc
      · rcases hh with hh | hh
        · simp [hk, hh]
        · rw [hh]; simp [hk]
      · rcases hh with hh | hh
        · simp [hk, hh]
        · simp [hk, hh]
    rcases h with h | h
    · exact ih _ a (Or.inl (hstep (Or.inl h)))
    · rcases List.mem_cons.mp h with h | h
      · exact ih _ a (Or.inl (hstep (Or.inr h)))
      · exact ih _ a (Or.inr h)

/-- A type with an unnamed binding appears in GetAllTypes. -/
theorem mem_getAllTypes (reg : Registry) (ty : GoType) (b : Binding)
    (hb : alookup reg.bindings ty = some b) : ty ∈ reg.getAllTypes := by
  have hmem : ty ∈ reg.bindings.map Prod.fst :=
    List.mem_map_of_mem Prod.fst (alookup_some_mem hb)
  unfold Registry.getAllTypes
  exact mem_foldl_addUnseen _ _ _ (Or.inr (List.mem_append_left _ hmem))

/-- The named-binding loop of Validate only appends errors. -/
theorem validateNamed_foldl_mono (reg : Registry) (fuel : Nat) (ty : GoType)
    (names : List String) :
    ∀ acc : List GoError × RState, ∃ tail,
      (names.foldl (validateNamedStep reg fuel ty) acc).1 = acc.1 ++ tail := by
  induction names with
  | nil => intro acc; exact ⟨[], by simp⟩
  | cons n rest ih =>
    intro acc
    rw [List.foldl_cons]
    obtain ⟨tail, htail⟩ := ih (validateNamedStep reg fuel ty acc n)
    have hone : ∃ one, (validateNamedStep reg fuel ty acc n).1 = acc.1 ++ one := by
      rcases h1 : makeSafeWithContext reg fuel ty n newResolutionContext acc.2 with ⟨r, s2⟩
      cases r with
      | error e =>
        refine ⟨[.wrap ("binding " ++ ty.str ++ "[" ++ n ++ "]") e], ?_⟩
        unfold validateNamedStep
        rw [h1]
      | ok v =>
        refine ⟨[], ?_⟩
        unfold validateNamedStep
        rw [h1]
        simp
    obtain ⟨one, hone⟩ := hone
    exact ⟨one ++ tail, by rw [htail, hone, List.append_assoc]⟩

/-- One pass of Validate's per-type loop only appends errors. -/
theorem validateStep_mono (reg : Registry) (fuel : Nat) (t : GoType)
    (acc : List GoError × RState) :
    ∃ tail, (validateStep reg fuel acc t).1 = acc.1 ++ tail := by
  obtain ⟨errs0, s0⟩ := acc
  unfold validateStep
  by_cases hu : reg.hasUnnamedBinding t = true
  · rcases h1 : makeSafeWithContext reg fuel t "" newResolutionContext s0 with ⟨r, s1⟩
    cases r with
    | error e =>
      obtain ⟨tail, htail⟩ := validateNamed_foldl_mono reg fuel t
        (reg.getAllNamedFor t) (errs0 ++ [.wrap ("binding " ++ t.str) e], s1)
      refine ⟨[.wrap ("binding " ++ t.str) e] ++ tail, ?_⟩
      simp only [hu, if_true, h1]
      rw [htail]
      simp [List.append_assoc]
    | ok v =>
      obtain ⟨tail, htail⟩ := validateNamed_foldl_mono reg fuel t
        (reg.getAllNamedFor t) (errs0, s1)
      refine ⟨tail, ?_⟩
      simp only [hu, if_true, h1]
      rw [htail]
  · obtain ⟨tail, htail⟩ := validateNamed_foldl_mono reg fuel t
      (reg.getAllNamedFor t) (errs0, s0)
    refine ⟨tail, ?_⟩
    simp only [hu]
    rw [if_neg (by simp : ¬(false = true))]
    rw [htail]

/-- Membership in the collected errors survives the rest of the loop. -/
theorem foldl_validateStep_preserve (reg : Registry) (fuel : Nat)
    (types : List GoType) (wErr : GoError) :
    ∀ acc : List GoError × RState, wErr ∈ acc.1 →
      wErr ∈ (types.foldl (validateStep reg fuel) acc).1 := by
  induction types with
  | nil => intro acc h; simpa using h
  | cons t rest ih =>
    intro acc h
    rw [List.foldl_cons]
    apply ih
    obtain ⟨tail, htail⟩ := validateStep_mono reg fuel t acc
    rw [htail]
    exact List.mem_append_left _ h

/-- If the per-type pass at ty always contributes a fixed error, that error
is in the final collection whenever ty is enumerated. -/
theorem foldl_validateStep_mem (reg : Registry) (fuel : Nat) (ty : GoType)
    (wErr : GoError)
    (hstep : ∀ acc : List GoError × RState,
      ∃ tail, (validateStep reg fuel acc ty).1 = acc.1 ++ wErr :: tail) :
    ∀ types : List GoType, ty ∈ types →
      ∀ acc, wErr ∈ (types.foldl (validateStep reg fuel) acc).1 := by
  intro types
  induction types with
  | nil => intro h; simp at h
  | cons t rest ih =>
    intro hty acc
    rw [List.foldl_cons]
    rcases List.mem_cons.mp hty with h | h
    · subst h
      apply foldl_validateStep_preserve
      obtain ⟨tail, htail⟩ := hstep acc
      rw [htail]
      simp
    · exact ih h _

/-- Validate's pass over a type with a scoped unnamed binding always records
the wrapped unknown-lifetime error for that binding. -/
theorem validateStep_scoped (reg : Registry) (fuel : Nat) (ty : GoType)
    (b : Binding) (hb : alookup reg.bindings ty = some b)
    (hl : b.lifetime = LifetimeScoped) (acc : List GoError × RState) :
    ∃ tail, (validateStep reg (fuel + 2) acc ty).1 = acc.1 ++
      (.wrap ("binding " ++ ty.str)
        (.resolution ty.str "" "unknown lifetime: scoped" none)) :: tail := by
  obtain ⟨errs0, s0⟩ := acc
  have hu : reg.hasUnnamedBinding ty = true := by
    simp [Registry.hasUnnamedBinding, hb]
  have hget : (if ("" : String) = "" then reg.get ty else reg.getNamed ty "") =
      .ok b := by
    simp [Registry.get, hb]
  have hms := makeSafe_scoped_unknown_lifetime reg ty b "" fuel s0 hget hl
  obtain ⟨tail, htail⟩ := validateNamed_foldl_mono reg (fuel + 2) ty
    (reg.getAllNamedFor ty)
    (errs0 ++ [.wrap ("binding " ++ ty.str)
      (.resolution ty.str "" "unknown lifetime: scoped" none)], s0)
  refine ⟨tail, ?_⟩
  unfold validateStep
  simp only [hu, if_true, hms]
  rw [htail]
  simp [List.append_assoc]

/-- C9: the safe-resolution dispatch has no scoped case, so MakeSafe on a
well-formed scoped binding returns the unknown-lifetime ResolutionError,
and Validate on any container holding a scoped unnamed binding returns a
validation error naming that binding. -/
theorem c9_scoped_dispatch_missing (reg : Registry) (s : RState) (fuel : Nat)
    (ty : GoType) (b : Binding)
    (hb : alookup reg.bindings ty = some b) (hl : b.lifetime = LifetimeScoped) :
    (MakeSafe reg (fuel + 2) ty s).1 =
      .error (.resolution ty.str "" "unknown lifetime: scoped" none) ∧
    ∃ errs, (Validate reg (fuel + 2) s).1 = some (.validation errs) ∧
      (.wrap ("binding " ++ ty.str)
        (.resolution ty.str "" "unknown lifetime: scoped" none)) ∈ errs := by
  have hget : (if ("" : String) = "" then reg.get ty else reg.getNamed ty "") =
      .ok b := by
    simp [Registry.get, hb]
  constructor
  · unfold MakeSafe
    rw [makeSafe_scoped_unknown_lifetime reg ty b "" fuel s hget hl]
  · have hmem := foldl_validateStep_mem reg (fuel + 2) ty _
      (validateStep_scoped reg fuel ty b hb hl) reg.getAllTypes
      (mem_getAllTypes reg ty b hb) ([], s)
    rcases hres : reg.getAllTypes.foldl (validateStep reg (fuel + 2)) ([], s)
      with ⟨errs, s'⟩
    rw [hres] at hmem
    have hne : errs.isEmpty = false := by
      cases errs with
      | nil => simp at hmem
      | cons x xs => simp
    refine ⟨errs, ?_, hmem⟩
    unfold Validate
    rw [hres]
    simp [hne]

/-- Witness for C9 at the concrete scoped container. -/
theorem c9_witness :
    (MakeSafe regScoped 2 svcA {}).1 =
      .error (.resolution "nasc.ServiceA" "" "unknown lifetime: scoped" none) ∧
    ∃ errs, (Validate regScoped 2 {}).1 = some (.validation errs) ∧
      (.wrap "binding nasc.ServiceA"
        (.resolution "nasc.ServiceA" "" "unknown lifetime: scoped" none)) ∈ errs := by
  exact c9_scoped_dispatch_missing regScoped {} 0 svcA bindScopedA (by rfl) rfl

/-- Pushing an unseen key extends the stack and the seen set. -/
theorem push_ok (rc : ResolutionContext) (k : String) (h : k ∉ rc.seen) :
    rc.push k = .ok { stack := rc.stack ++ [k], seen := k :: rc.seen } := by
  simp [ResolutionContext.push, h]

/-- pop undoes a successful push exactly, so the deferred pop of the source
restores the context a nested call received; the embedding may therefore
pass contexts by value and reuse the pre-push value after a completed
call. -/
theorem pop_push (rc rc' : ResolutionContext) (k : String)
    (h : rc.push k = .ok rc') : rc'.pop = rc := by
  unfold ResolutionContext.push at h
  by_cases hs : k ∈ rc.seen
  · rw [if_pos hs] at h
    exact absurd h (by simp)
  · rw [if_neg hs] at h
    injection h with h2
    subst h2
    unfold ResolutionContext.pop
    simp [List.getLast?_concat, List.dropLast_concat, List.erase_cons_head]

/-- Resolving a type whose key is already on the resolution path fails
immediately with a CircularDependencyError carrying the whole path, the
repeated key appended. -/
theorem makeSafe_cycle_hit (reg : Registry) (ty : GoType) (fuel : Nat)
    (ctx : ResolutionContext) (s : RState) (hseen : ty.str ∈ ctx.seen) :
    makeSafeWithContext reg (fuel + 1) ty "" ctx s =
      (.error (.circular (ctx.stack ++ [ty.str])), s) := by
  simp only [makeSafeWithContext]
  rw [show typeKeyOf ty "" = ty.str from by simp [typeKeyOf]]
  unfold ResolutionContext.push
  rw [if_pos hseen]

/-- One level of safe resolution through a transient constructor binding
with a single parameter: a failing parameter resolution is wrapped in a
ResolutionError naming the parameter, and the state passes through
untouched. -/
theorem makeSafe_ctor_param_err (reg : Registry) (ty : GoType) (b : Binding)
    (info : CtorInfo) (p : GoType) (fuel : Nat)
    (ctx ctx' : ResolutionContext) (s : RState) (e : GoError)
    (hb : alookup reg.bindings ty = some b) (hl : b.lifetime = LifetimeTransient)
    (hc : b.constructor = some info) (hp : info.paramTypes = [p])
    (hpush : ctx.push ty.str = .ok ctx')
    (hrec : makeSafeWithContext reg (fuel + 1) p "" ctx' s = (.error e, s)) :
    makeSafeWithContext reg (fuel + 5) ty "" ctx s =
      (.error (.resolution info.returnType.str ""
        ("failed to resolve constructor parameter 0 (" ++ p.str ++ ")")
        (some e)), s) := by
  rw [show fuel + 5 = (fuel + 4) + 1 from rfl]
  simp only [makeSafeWithContext]
  rw [show typeKeyOf ty "" = ty.str from by simp [typeKeyOf]]
  rw [hpush]
  have hif : (if True then reg.get ty else reg.getNamed ty "") = reg.get ty :=
    if_pos trivial
  rw [hif]
  rw [show reg.get ty = .ok b from by simp [Registry.get, hb]]
  rw [show fuel + 4 = (fuel + 3) + 1 from rfl]
  simp only [createInstanceSafe]
  rw [hl, if_pos rfl, hc]
  rw [show fuel + 3 = (fuel + 2) + 1 from rfl]
  simp only [invokeConstructorSafe]
  rw [hp]
  rw [show fuel + 2 = (fuel + 1) + 1 from rfl]
  simp only [resolveParamsSafe]
  rw [hrec]
  rfl

/-- C1: in a container whose constructor bindings form the 3-node cycle
A -> B -> C -> A, MakeSafe(A) fails with a circular-dependency error whose
reported path is exactly [A, B, C, A] (the whole sequence of encountered
keys, first occurrence through the repeated key); for a direct 2-node cycle
A -> B -> A the reported path is exactly [A, B, A]. -/
theorem c1_cycle_paths :
    (∀ (reg : Registry) (A B C : GoType) (bA bB bC : Binding)
       (iA iB iC : CtorInfo) (fuel : Nat) (s : RState),
       alookup reg.bindings A = some bA → bA.lifetime = LifetimeTransient →
       bA.constructor = some iA → iA.paramTypes = [B] →
       alookup reg.bindings B = some bB → bB.lifetime = LifetimeTransient →
       bB.constructor = some iB → iB.paramTypes = [C] →
       alookup reg.bindings C = some bC → bC.lifetime = LifetimeTransient →
       bC.constructor = some iC → iC.paramTypes = [A] →
       A.str ≠ B.str → A.str ≠ C.str → B.str ≠ C.str →
       ∃ e, (MakeSafe reg (fuel + 13) A s).1 = .error e ∧
         circPaths e = [[A.str, B.str, C.str, A.str]]) ∧
    (∀ (reg : Registry) (A B : GoType) (bA bB : Binding) (iA iB : CtorInfo)
       (fuel : Nat) (s : RState),
       alookup reg.bindings A = some bA → bA.lifetime = LifetimeTransient →
       bA.constructor = some iA → iA.paramTypes = [B] →
       alookup reg.bindings B = some bB → bB.lifetime = LifetimeTransient →
       bB.constructor = some iB → iB.paramTypes = [A] →
       A.str ≠ B.str →
       ∃ e, (MakeSafe reg (fuel + 9) A s).1 = .error e ∧
         circPaths e = [[A.str, B.str, A.str]]) := by
  constructor
  · intro reg A B C bA bB bC iA iB iC fuel s hbA hlA hcA hpA hbB hlB hcB hpB
      hbC hlC hcC hpC hAB hAC hBC
    have hpush0 : newResolutionContext.push A.str =
        .ok { stack := [A.str], seen := [A.str] } := by
      apply push_ok; simp [newResolutionContext]
    have hpush1 : ResolutionContext.push { stack := [A.str], seen := [A.str] }
        B.str = .ok { stack := [A.str, B.str], seen := [B.str, A.str] } := by
      apply push_ok; simp [Ne.symm hAB]
    have hpush2 : ResolutionContext.push
        { stack := [A.str, B.str], seen := [B.str, A.str] } C.str =
        .ok { stack := [A.str, B.str, C.str], seen := [C.str, B.str, A.str] } := by
      apply push_ok; simp [Ne.symm hAC, Ne.symm hBC]
    have hhit := makeSafe_cycle_hit reg A fuel
      { stack := [A.str, B.str, C.str], seen := [C.str, B.str, A.str] } s
      (by simp)
    have hC := makeSafe_ctor_param_err reg C bC iC A fuel
      { stack := [A.str, B.str], seen := [B.str, A.str] }
      { stack := [A.str, B.str, C.str], seen := [C.str, B.str, A.str] } s _
      hbC hlC hcC hpC hpush2 hhit
    have hB := makeSafe_ctor_param_err reg B bB iB C (fuel + 4)
      { stack := [A.str], seen := [A.str] }
      { stack := [A.str, B.str], seen := [B.str, A.str] } s _
      hbB hlB hcB hpB hpush1 hC
    have hA := makeSafe_ctor_param_err reg A bA iA B (fuel + 8)
      newResolutionContext { stack := [A.str], seen := [A.str] } s _
      hbA hlA hcA hpA hpush0 hB
    refine ⟨.resolution iA.returnType.str ""
      ("failed to resolve constructor parameter 0 (" ++ B.str ++ ")")
      (some (.resolution iB.returnType.str ""
        ("failed to resolve constructor parameter 0 (" ++ C.str ++ ")")
        (some (.resolution iC.returnType.str ""
          ("failed to resolve constructor parameter 0 (" ++ A.str ++ ")")
          (some (.circular ([A.str, B.str, C.str] ++ [A.str]))))))), ?_, ?_⟩
    · unfold MakeSafe
      rw [show fuel + 13 = (fuel + 8) + 5 from rfl]
      rw [hA]
    · simp [circPaths]
  · intro reg A B bA bB iA iB fuel s hbA hlA hcA hpA hbB hlB hcB hpB hAB
    have hpush0 : newResolutionContext.push A.str =
        .ok { stack := [A.str], seen := [A.str] } := by
      apply push_ok; simp [newResolutionContext]
    have hpush1 : ResolutionContext.push { stack := [A.str], seen := [A.str] }
        B.str = .ok { stack := [A.str, B.str], seen := [B.str, A.str] } := by
      apply push_ok; simp [Ne.symm hAB]
    have hhit := makeSafe_cycle_hit reg A fuel
      { stack := [A.str, B.str], seen := [B.str, A.str] } s (by simp)
    have hB := makeSafe_ctor_param_err reg B bB iB A fuel
      { stack := [A.str], seen := [A.str] }
      { stack := [A.str, B.str], seen := [B.str, A.str] } s _
      hbB hlB hcB hpB hpush1 hhit
    have hA := makeSafe_ctor_param_err reg A bA iA B (fuel + 4)
      newResolutionContext { stack := [A.str], seen := [A.str] } s _
      hbA hlA hcA hpA hpush0 hB
    refine ⟨.resolution iA.returnType.str ""
      ("failed to resolve constructor parameter 0 (" ++ B.str ++ ")")
      (some (.resolution iB.returnType.str ""
        ("failed to resolve constructor parameter 0 (" ++ A.str ++ ")")
        (some (.circular ([A.str, B.str] ++ [A.str]))))), ?_, ?_⟩
    · unfold MakeSafe
      rw [show fuel + 9 = (fuel + 4) + 5 from rfl]
      rw [hA]
    · simp [circPaths]

/-- Witness for C1 at the two concrete cycle containers. -/
theorem c1_witness :
    (∃ e, (MakeSafe regCycle3 13 svcA {}).1 = .error e ∧
      circPaths e =
        [["nasc.ServiceA", "nasc.ServiceB", "nasc.ServiceC", "nasc.ServiceA"]]) ∧
    (∃ e, (MakeSafe regCycle2 9 svcA {}).1 = .error e ∧
      circPaths e = [["nasc.ServiceA", "nasc.ServiceB", "nasc.ServiceA"]]) := by
  constructor
  · exact c1_cycle_paths.1 regCycle3 svcA svcB svcC bndA3 bndB3 bndC3
      infoA3 infoB3 infoC3 0 {} (by rfl) rfl rfl rfl (by rfl) rfl rfl rfl
      (by rfl) rfl rfl rfl (by decide) (by decide) (by decide)
  · exact c1_cycle_paths.2 regCycle2 svcA svcB bndA3 bndB2 infoA3 infoB2 0 {}
      (by rfl) rfl rfl rfl (by rfl) rfl rfl rfl (by decide)

/-- C5: Validate walks every registered binding and aggregates every failure
into one ValidationError instead of stopping at the first: each per-type
pass only ever appends to the failures already collected (no failure is
dropped and no pass is skipped after an earlier failure), and with three
independently broken bindings (Broken1 with a missing dependency, Broken2
with a dependency cycle, Broken3 with a failing constructor) the returned
aggregate reports exactly the three failures, one per binding, in
registration order. -/
theorem c5_validate_reports_all_failures :
    (∀ (reg : Registry) (fuel : Nat) (t : GoType) (acc : List GoError × RState),
      ∃ tail, (validateStep reg fuel acc t).1 = acc.1 ++ tail) ∧
    (Validate regBroken 10 {}).1 = some (.validation
      [.wrap "binding nasc.Broken1"
        (.resolution "*nasc.Broken1Impl" ""
          "failed to resolve constructor parameter 0 (nasc.Missing)"
          (some (.resolution "nasc.Missing" "" ""
            (some (.notFound "nasc.Missing"))))),
       .wrap "binding nasc.Broken2"
        (.resolution "*nasc.Broken2Impl" ""
          "failed to resolve constructor parameter 0 (nasc.Broken2)"
          (some (.circular ["nasc.Broken2", "nasc.Broken2"]))),
       .wrap "binding nasc.Broken3"
        (.resolution "*nasc.Broken3Impl" "" "constructor returned error"
          (some (.userErr "constructor failed")))]) :=
  ⟨fun reg fuel t acc => validateStep_mono reg fuel t acc, rfl⟩

/-- Counterexample to C6 as stated: a constructor with a concrete int
parameter is ACCEPTED at bind time (BindConstructor returns no error, not
an invalid-binding error), and its invocation then fails with the
per-parameter must-be-an-interface error — the opposite of bind-time
rejection. -/
theorem c6_counterexample_bind_accepts_concrete_param :
    (BindConstructor Registry.empty svcS (some ctorIntParam)).1 = none ∧
    (Make regIntParam 10 svcS {}).1 = .error
      ("failed to invoke constructor for type nasc.ServiceS: constructor parameter 0 must be an interface, got int") :=
  ⟨rfl, rfl⟩

/-- C6 amended: parseConstructor validates only the return shape at bind
time (one or two returns, the first a pointer, the optional second an
error) and captures the parameter types without inspecting them, so
constructor-based registration accepts a constructor whatever its parameter
kinds; the per-parameter interface check runs at invocation time, where a
leading non-interface parameter makes the invocation fail with the
must-be-an-interface error. -/
theorem c6_amended_param_check_at_call_time
    (f : GoFunc) (ret : GoType) (rest : List GoType)
    (houts : f.outs = ret :: rest) (hlen : rest.length ≤ 1)
    (hret : ret.kind = Kind.ptrK)
    (herr : ∀ second ∈ rest, second.implError = true) :
    (∃ info, parseConstructor (some f) = .ok info ∧
      info.paramTypes = f.params ∧ info.returnType = ret) ∧
    (∀ (reg : Registry) (ty : GoType) (lt : String),
      alookup reg.bindings ty = none →
      (bindConstructorWithLifetime reg ty (some f) lt).1 = none) ∧
    (∀ (reg : Registry) (info : CtorInfo) (p : GoType) (ps : List GoType)
       (fuel : Nat) (s : RState),
      info.paramTypes = p :: ps → p.kind ≠ Kind.interfaceK →
      (invokeConstructor reg (fuel + 2) info s).1 =
        .error (.plain ("constructor parameter 0 must be an interface, got " ++
          p.str))) := by
  have hparse : ∃ info, parseConstructor (some f) = .ok info ∧
      info.paramTypes = f.params ∧ info.returnType = ret := by
    cases rest with
    | nil =>
      refine ⟨{ fn := f, paramTypes := f.params, returnsError := false,
                returnType := ret, numParams := f.params.length }, ?_, rfl, rfl⟩
      simp only [parseConstructor]
      rw [houts]
      simp [hret]
    | cons second rest2 =>
      have hrest2 : rest2 = [] := by
        cases rest2 with
        | nil => rfl
        | cons x xs => simp at hlen
      subst hrest2
      have hsec : second.implError = true := herr second (by simp)
      refine ⟨{ fn := f, paramTypes := f.params, returnsError := true,
                returnType := ret, numParams := f.params.length }, ?_, rfl, rfl⟩
      simp only [parseConstructor]
      rw [houts]
      simp [hret, hsec]
  refine ⟨hparse, ?_, ?_⟩
  · intro reg ty lt hlook
    obtain ⟨info, hinfo, _, _⟩ := hparse
    unfold bindConstructorWithLifetime
    rw [hinfo]
    simp [Registry.register, hlook]
  · intro reg info p ps fuel s hps hp
    rw [show fuel + 2 = (fuel + 1) + 1 from rfl]
    simp only [invokeConstructor]
    rw [hps]
    simp only [resolveParams]
    rw [if_neg hp]
    rfl

/-- Witness for the amended C6 at the int-parameter constructor. -/
theorem c6_witness :
    (∃ info, parseConstructor (some ctorIntParam) = .ok info ∧
      info.paramTypes = [intT] ∧ info.returnType = implS) ∧
    (BindConstructor Registry.empty svcS (some ctorIntParam)).1 = none ∧
    (invokeConstructor regIntParam 9
      { fn := ctorIntParam, paramTypes := [intT], returnsError := false,
        returnType := implS, numParams := 1 } {}).1 =
      .error (.plain "constructor parameter 0 must be an interface, got int") := by
  have h := c6_amended_param_check_at_call_time ctorIntParam implS []
    rfl (by decide) rfl (by intro x hx; simp at hx)
  refine ⟨h.1, ?_, ?_⟩
  · exact h.2.1 Registry.empty svcS LifetimeTransient (by rfl)
  · exact h.2.2 regIntParam _ intT [] 7 {} rfl (by decide)

/-- C10: in Scope.Make for a scoped binding, the freshly built instance is
inserted into the scope's instance cache and appended to the creation-order
log BEFORE its Initialize hook runs; when Initialize fails the call panics,
the hook having run once, but the instance stays cached, so every
subsequent Scope.Make for the same abstract type returns that
un-initialized instance with no error, no new construction and no second
Initialize run (the state, the initialization log included, is returned
untouched). -/
theorem c10_scoped_cached_before_init (reg : Registry) (sc : Scope)
    (s : RState) (ty : GoType) (b : Binding) (fuel : Nat) (v : Value)
    (s' : RState) (m : String)
    (hnd : sc.disposed = false)
    (hb : reg.get ty = .ok b) (hl : b.lifetime = LifetimeScoped)
    (hmiss : alookup sc.instances ty = none)
    (hcreate : Scope.createInstance reg fuel s b ty = (.ok v, s'))
    (hinit : v.ty.initB = some (some m)) :
    (Scope.scopeMake sc reg fuel s ty).1 =
      .error ("failed to initialize instance of type " ++ ty.str ++ ": " ++ m) ∧
    (Scope.scopeMake sc reg fuel s ty).2.1.inits = s'.inits ++ [v] ∧
    alookup (Scope.scopeMake sc reg fuel s ty).2.2.instances ty = some v ∧
    (Scope.scopeMake sc reg fuel s ty).2.2.creationOrder =
      sc.creationOrder ++ [v] ∧
    (∀ (fuel2 : Nat) (s2 : RState),
      Scope.scopeMake (Scope.scopeMake sc reg fuel s ty).2.2 reg fuel2 s2 ty =
        (.ok v, s2, (Scope.scopeMake sc reg fuel s ty).2.2)) := by
  have h1 : Scope.scopeMake sc reg fuel s ty =
      (.error ("failed to initialize instance of type " ++ ty.str ++ ": " ++ m),
        { s' with inits := s'.inits ++ [v] },
        Scope.mk (aupdate sc.instances ty v) (sc.creationOrder ++ [v])
          sc.children false) := by
    simp only [Scope.scopeMake, hnd, Bool.false_eq_true, if_false, hb]
    rw [hl, if_pos rfl]
    simp only [hmiss, hcreate, runInitHook, hinit]
  have hsc' : (Scope.scopeMake sc reg fuel s ty).2.2 =
      Scope.mk (aupdate sc.instances ty v) (sc.creationOrder ++ [v])
        sc.children false := by
    rw [h1]
  refine ⟨by rw [h1], by rw [h1], ?_, ?_, ?_⟩
  · rw [hsc']
    exact alookup_aupdate_self _ _ _
  · rw [hsc']
    rfl
  · intro fuel2 s2
    rw [hsc']
    simp only [Scope.scopeMake, Scope.disposed, Bool.false_eq_true, if_false, hb]
    rw [hl, if_pos rfl]
    simp only [Scope.instances, alookup_aupdate_self]

/-- Witness for C10 at the concrete scoped container with the failing
Initialize hook. -/
theorem c10_witness :
    (Scope.scopeMake newScope regScopedUow 3 {} uowT).1 =
      .error "failed to initialize instance of type nasc.UnitOfWork: init failed" ∧
    (Scope.scopeMake newScope regScopedUow 3 {} uowT).2.1.inits =
      ({ nextId := 1 } : RState).inits ++ [⟨implUow, 0⟩] ∧
    alookup (Scope.scopeMake newScope regScopedUow 3 {} uowT).2.2.instances uowT =
      some ⟨implUow, 0⟩ ∧
    (Scope.scopeMake newScope regScopedUow 3 {} uowT).2.2.creationOrder =
      newScope.creationOrder ++ [⟨implUow, 0⟩] ∧
    (∀ (fuel2 : Nat) (s2 : RState),
      Scope.scopeMake (Scope.scopeMake newScope regScopedUow 3 {} uowT).2.2
        regScopedUow fuel2 s2 uowT =
        (.ok ⟨implUow, 0⟩, s2,
          (Scope.scopeMake newScope regScopedUow 3 {} uowT).2.2)) := by
  exact c10_scoped_cached_before_init regScopedUow newScope {} uowT
    bindScopedUow 3 ⟨implUow, 0⟩ { nextId := 1 } "init failed"
    rfl (by rfl) rfl (by rfl) (by rfl) rfl

/-- The instance-disposal loop visits exactly the Disposable instances, in
list order, and collects exactly the failures. -/
theorem disposeInstances_eq (l : List Value) :
    disposeInstances l =
      (l.filterMap disposeFailureOf, l.filter Value.isDisposable) := by
  induction l with
  | nil => rfl
  | cons v rest ih =>
    simp only [disposeInstances, ih]
    cases hd : v.ty.disposeB with
    | none => simp [disposeFailureOf, Value.isDisposable, hd]
    | some o =>
      cases o with
      | none => simp [disposeFailureOf, Value.isDisposable, hd]
      | some m => simp [disposeFailureOf, Value.isDisposable, hd]

/-- The unfolded result of disposing a not-yet-disposed scope. -/
theorem dispose_mk_false (insts : List (GoType × Value)) (co : List Value)
    (cs : ScopeChildren) :
    Scope.dispose (.mk insts co cs false) =
      ((if ((ScopeChildren.disposeAll cs).1 ++
            (disposeInstances co.reverse).1).isEmpty
          then none
          else some (.disposal
            ((ScopeChildren.disposeAll cs).1 ++
              (disposeInstances co.reverse).1).length
            ((ScopeChildren.disposeAll cs).1 ++
              (disposeInstances co.reverse).1))),
        Scope.mk [] [] .nil true,
        (ScopeChildren.disposeAll cs).2 ++ (disposeInstances co.reverse).2) := by
  simp only [Scope.dispose, Bool.false_eq_true, if_false]

mutual

/-- Every cleanup a scope's Dispose performs is on an instance recorded in
the scope tree's creation-order logs. -/
theorem dispose_trace_subset (sc : Scope) :
    ∀ v ∈ (Scope.dispose sc).2.2, v ∈ sc.allValues := by
  cases sc with
  | mk insts co cs d =>
    intro v hv
    cases d with
    | true => simp [Scope.dispose] at hv
    | false =>
      rw [dispose_mk_false] at hv
      simp only [Scope.allValues]
      rcases List.mem_append.mp hv with h | h
      · exact List.mem_append_right _ (ScopeChildren.disposeAll_trace_subset cs v h)
      · rw [disposeInstances_eq] at h
        exact List.mem_append_left _
          (List.mem_reverse.mp (List.mem_of_mem_filter h))

/-- disposeAll only touches instances recorded below the children. -/
theorem ScopeChildren.disposeAll_trace_subset (cs : ScopeChildren) :
    ∀ v ∈ (ScopeChildren.disposeAll cs).2, v ∈ cs.allValues := by
  cases cs with
  | nil => intro v hv; simp [ScopeChildren.disposeAll] at hv
  | cons c rest =>
    intro v hv
    simp only [ScopeChildren.disposeAll] at hv
    simp only [ScopeChildren.allValues]
    rcases List.mem_append.mp hv with h | h
    · exact List.mem_append_left _ (dispose_trace_subset c v h)
    · exact List.mem_append_right _ (ScopeChildren.disposeAll_trace_subset rest v h)

end

/-- Two positions of a list, in order, form a sublist. -/
theorem pair_get_sublist {α : Type} (l : List α) :
    ∀ (i j : Nat) (hj : j < l.length) (hij : i < j),
      List.Sublist [l.get ⟨i, lt_trans hij hj⟩, l.get ⟨j, hj⟩] l := by
  induction l with
  | nil => intro i j hj; simp at hj
  | cons a t ih =>
    intro i j hj hij
    cases i with
    | zero =>
      cases j with
      | zero => omega
      | succ j' =>
        have hj' : j' < t.length := by simpa using hj
        show List.Sublist [a, t.get ⟨j', hj'⟩] (a :: t)
        exact (List.singleton_sublist.mpr (t.get_mem j' hj')).cons₂ a
    | succ i' =>
      cases j with
      | zero => omega
      | succ j' =>
        have hj' : j' < t.length := by simpa using hj
        have hij' : i' < j' := by omega
        show List.Sublist [t.get ⟨i', lt_trans hij' hj'⟩, t.get ⟨j', hj'⟩] (a :: t)
        exact (ih i' j' hj' hij').cons a

/-- C7: disposing a live scope first disposes its child scopes (everything
before this scope's own cleanups comes from the children's logs), then
invokes the cleanup capability on its own instances in strict reverse
creation order — for X created before Y, Y's cleanup runs before X's —
a failing cleanup neither stops the remaining cleanups nor goes
unrecorded: every Disposable instance is still visited and every failure
appears in the returned aggregate error. -/
theorem c7_dispose_children_first_reverse_order
    (insts : List (GoType × Value)) (co : List Value) (cs : ScopeChildren)
    (i j : Nat) (hij : i < j) (hj : j < co.length)
    (hdi : (co.get ⟨i, lt_trans hij hj⟩).isDisposable = true)
    (hdj : (co.get ⟨j, hj⟩).isDisposable = true) :
    (Scope.dispose (.mk insts co cs false)).2.2 =
      (ScopeChildren.disposeAll cs).2 ++
        co.reverse.filter Value.isDisposable ∧
    (∀ v ∈ (ScopeChildren.disposeAll cs).2, v ∈ cs.allValues) ∧
    List.Sublist [co.get ⟨j, hj⟩, co.get ⟨i, lt_trans hij hj⟩]
      (Scope.dispose (.mk insts co cs false)).2.2 ∧
    (∀ v ∈ co, v.isDisposable = true →
      v ∈ (Scope.dispose (.mk insts co cs false)).2.2) ∧
    (∀ (v : Value) (g : GoError), v ∈ co → disposeFailureOf v = some g →
      ∃ errs, (Scope.dispose (.mk insts co cs false)).1 =
        some (.disposal errs.length errs) ∧ g ∈ errs) := by
  have htr : (Scope.dispose (.mk insts co cs false)).2.2 =
      (ScopeChildren.disposeAll cs).2 ++ co.reverse.filter Value.isDisposable := by
    rw [dispose_mk_false, disposeInstances_eq]
  refine ⟨htr, fun v hv => ScopeChildren.disposeAll_trace_subset cs v hv, ?_, ?_, ?_⟩
  · rw [htr]
    have h1 := pair_get_sublist co i j hj hij
    have h2 := h1.reverse
    have h3 : List.Sublist [co.get ⟨j, hj⟩, co.get ⟨i, lt_trans hij hj⟩]
        co.reverse := by simpa using h2
    have h4 := h3.filter Value.isDisposable
    have h5 : List.filter Value.isDisposable
        [co.get ⟨j, hj⟩, co.get ⟨i, lt_trans hij hj⟩] =
        [co.get ⟨j, hj⟩, co.get ⟨i, lt_trans hij hj⟩] := by
      apply List.filter_eq_self.mpr
      intro a ha
      rcases List.mem_cons.mp ha with h | h
      · rw [h]; exact hdj
      · rw [List.mem_singleton.mp h]; exact hdi
    rw [h5] at h4
    exact h4.trans (List.sublist_append_right _ _)
  · intro v hv hd
    rw [htr]
    exact List.mem_append_right _
      (List.mem_filter.mpr ⟨List.mem_reverse.mpr hv, hd⟩)
  · intro v g hv hg
    have hmemerr : g ∈ (ScopeChildren.disposeAll cs).1 ++
        (disposeInstances co.reverse).1 := by
      rw [disposeInstances_eq]
      exact List.mem_append_right _
        (List.mem_filterMap.mpr ⟨v, List.mem_reverse.mpr hv, hg⟩)
    have hne : ((ScopeChildren.disposeAll cs).1 ++
        (disposeInstances co.reverse).1).isEmpty = false := by
      cases hcase : (ScopeChildren.disposeAll cs).1 ++
          (disposeInstances co.reverse).1 with
      | nil => rw [hcase] at hmemerr; simp at hmemerr
      | cons x xs => simp
    refine ⟨(ScopeChildren.disposeAll cs).1 ++ (disposeInstances co.reverse).1,
      ?_, hmemerr⟩
    rw [dispose_mk_false]
    simp [hne]

/-- Witness for C7 at a concrete scope holding X then Y, Y's cleanup
failing. -/
theorem c7_witness :
    (Scope.dispose (.mk [] [valX, valY] ScopeChildren.nil false)).2.2 =
      (ScopeChildren.disposeAll ScopeChildren.nil).2 ++
        [valX, valY].reverse.filter Value.isDisposable ∧
    (∀ v ∈ (ScopeChildren.disposeAll ScopeChildren.nil).2,
      v ∈ ScopeChildren.allValues ScopeChildren.nil) ∧
    List.Sublist [valY, valX]
      (Scope.dispose (.mk [] [valX, valY] ScopeChildren.nil false)).2.2 ∧
    (∀ v ∈ [valX, valY], v.isDisposable = true →
      v ∈ (Scope.dispose (.mk [] [valX, valY] ScopeChildren.nil false)).2.2) ∧
    (∀ (v : Value) (g : GoError), v ∈ [valX, valY] →
      disposeFailureOf v = some g →
      ∃ errs, (Scope.dispose (.mk [] [valX, valY] ScopeChildren.nil false)).1 =
        some (.disposal errs.length errs) ∧ g ∈ errs) := by
  exact c7_dispose_children_first_reverse_order [] [valX, valY]
    ScopeChildren.nil 0 1 (by decide) (by decide) (by decide) (by decide)

end NascDI
